import Mathlib

/-!
Verification of the Financial Dashboard metrics-and-alerting engine.

This file gives a shallow embedding of the derived-metric computations in
src/02_data_prep/etl_pipeline.py (class FinancialDataETL) and
src/05_reports/automated_reports.py (class FinancialReportGenerator), and
proves properties of them.

Modelling conventions:
- SQL numeric and Python decimal arithmetic is modelled with ℚ.
- Dates are day numbers (ℤ); DATE_TRUNC('month', d) is abstracted as a
  month index (ℤ) carried on each transaction.
- A SQL value that is NULL, or a pandas float that is NaN or ±infinity,
  is modelled as Option.none; finite defined values are Option.some.
- SQL SUM over zero rows yields NULL: get_monthly_summary's aggregate
  (no GROUP BY, no COALESCE) returns one row whose income/expenses/savings
  are NULL when the current month has no joined transactions, and that is
  modelled as none. The other queries guard this with COALESCE or read
  sums only per GROUP BY group, which always holds at least one row, so
  plain list sums are faithful there.
- pandas DataFrames are lists of record structures; SQL ORDER BY and the
  pandas sorts are List.mergeSort with the corresponding Bool order.
-/

namespace FinDash

/-- SQL ROUND(x::numeric, d): round half away from zero, as an integer of
the scaled value. -/
def sqlRoundInt (x : ℚ) : ℤ :=
  if 0 ≤ x then ⌊x + 1 / 2⌋ else -⌊(1 / 2) - x⌋

/-- SQL ROUND(x::numeric, d) at d decimal digits. -/
def sqlRoundTo (d : Nat) (x : ℚ) : ℚ :=
  (sqlRoundInt (x * 10 ^ d) : ℚ) / 10 ^ d

/-- numpy/pandas .round: round half to even, as an integer of the scaled
value. -/
def npRoundInt (x : ℚ) : ℤ :=
  let f := ⌊x⌋
  let r := x - f
  if r < 1 / 2 then f
  else if 1 / 2 < r then f + 1
  else if f % 2 = 0 then f else f + 1

/-- numpy/pandas .round(d) at d decimal digits. -/
def npRoundTo (d : Nat) (x : ℚ) : ℚ :=
  (npRoundInt (x * 10 ^ d) : ℚ) / 10 ^ d

/-- A row of the categories table. category_type is "income" or "expense";
parent_category_id is NULL for a top-level category. -/
structure Category where
  categoryId : Nat
  categoryName : String
  categoryType : String
  parentCategoryId : Option Nat
deriving DecidableEq

/-- A row of the transactions table (joined attributes category_id,
amount, transaction_type, merchant). txnMonth is DATE_TRUNC('month',
transaction_date) as an abstract month index; txnDate is the transaction
date as a day number. -/
structure Transaction where
  transactionId : Nat
  categoryId : Nat
  amount : ℚ
  transactionType : String
  txnMonth : ℤ
  txnDate : ℤ
  merchant : Option String
deriving DecidableEq

/-- A row of the budgets table. -/
structure Budget where
  categoryId : Nat
  budgetAmount : ℚ
  budgetPeriod : String
  isActive : Bool
deriving DecidableEq

/-- A row of the financial_goals table. -/
structure FinancialGoal where
  goalName : String
  goalType : String
  targetAmount : ℚ
  currentAmount : ℚ
  targetDate : ℤ
  priority : ℤ
  isActive : Bool
deriving DecidableEq

/-- Look up a category by id (SQL JOIN categories c ON t.category_id =
c.category_id, with category_id as key). -/
def lookupCategory (cats : List Category) (cid : Nat) : Option Category :=
  cats.find? (fun c => c.categoryId == cid)

/-- transactions JOIN categories ON t.category_id = c.category_id: a
transaction whose category id matches no category produces no row. -/
def joinTxnCategory (txs : List Transaction) (cats : List Category) :
    List (Transaction × Category) :=
  txs.filterMap (fun t => (lookupCategory cats t.categoryId).map (fun c => (t, c)))

/-- Result row of FinancialReportGenerator.get_monthly_summary. The
query is an aggregate without GROUP BY, so it always returns exactly one
row (df.iloc[0] in the code; the len(df) > 0 fallback never fires); when
the current month has no joined transactions, SUM(CASE ...) is SQL NULL,
so income, expenses and savings are NULL (NaN in pandas) — modelled as
none — while savings_rate is still 0, because CASE WHEN income > 0 is not
true for a NULL income and the ELSE 0 branch applies. -/
structure MonthlySummary where
  income : Option ℚ
  expenses : Option ℚ
  savings : Option ℚ
  savingsRate : ℚ
deriving DecidableEq

/-- The joined transactions of the current month: the WHERE clause of
get_monthly_summary's CTE (and the input rows of its SUM aggregates). -/
def currentMonthRows (txs : List Transaction) (cats : List Category)
    (currentMonth : ℤ) : List (Transaction × Category) :=
  (joinTxnCategory txs cats).filter (fun p => p.1.txnMonth == currentMonth)

/-- FinancialReportGenerator.get_monthly_summary
(src/05_reports/automated_reports.py lines 67-89): income = SUM(CASE WHEN
category_type = 'income' THEN amount ELSE 0 END), expenses = SUM(CASE WHEN
category_type = 'expense' AND transaction_type = 'debit' THEN amount ELSE
0 END) over the current month; savings = income - expenses; savings_rate =
CASE WHEN income > 0 THEN ROUND((income - expenses) / income * 100, 2)
ELSE 0 END. With zero input rows the SUMs (and hence savings) are NULL
and the savings_rate CASE falls to its ELSE 0. -/
def getMonthlySummary (txs : List Transaction) (cats : List Category)
    (currentMonth : ℤ) : MonthlySummary :=
  let rows := currentMonthRows txs cats currentMonth
  let income := (rows.map (fun p =>
    if p.2.categoryType == "income" then p.1.amount else 0)).sum
  let expenses := (rows.map (fun p =>
    if p.2.categoryType == "expense" && p.1.transactionType == "debit"
    then p.1.amount else 0)).sum
  if rows.isEmpty then
    { income := none, expenses := none, savings := none, savingsRate := 0 }
  else
    { income := some income
      expenses := some expenses
      savings := some (income - expenses)
      savingsRate :=
        if 0 < income then sqlRoundTo 2 ((income - expenses) / income * 100) else 0 }

/-- Result row of FinancialDataETL.extract_monthly_summary after the
pivot. savings and savings_rate are Option values: the pivot only adds
those columns when both an 'income' and an 'expense' column exist, and the
pandas float division savings / income is NaN or ±infinity (none) when
income = 0. -/
structure EtlMonthlyRow where
  month : ℤ
  income : ℚ
  expense : ℚ
  savings : Option ℚ
  savingsRate : Option ℚ
deriving DecidableEq

/-- Months appearing in the joined transaction data (the pivot index). -/
def etlMonths (txs : List Transaction) (cats : List Category) : List ℤ :=
  ((joinTxnCategory txs cats).map (fun p => p.1.txnMonth)).dedup

/-- SUM(t.amount) grouped by month and category_type, pivoted with
fill_value = 0: the total for one month and one category type, over all
transaction types (no debit filter in this query). -/
def etlTypeTotal (txs : List Transaction) (cats : List Category)
    (m : ℤ) (ctype : String) : ℚ :=
  (((joinTxnCategory txs cats).filter (fun p =>
    p.1.txnMonth == m && p.2.categoryType == ctype)).map (fun p => p.1.amount)).sum

/-- Whether any joined transaction has the given category type: determines
whether the pivot table has that column at all. -/
def etlHasType (txs : List Transaction) (cats : List Category) (ctype : String) : Bool :=
  (joinTxnCategory txs cats).any (fun p => p.2.categoryType == ctype)

/-- FinancialDataETL.extract_monthly_summary
(src/02_data_prep/etl_pipeline.py lines 107-139): per-month totals of ALL
transaction amounts grouped by category_type (income column and expense
column), then, only if both columns exist, savings = income - expense and
savings_rate = (savings / income * 100).round(2) computed in pandas
floats, so savings_rate is non-finite (none) when income = 0. -/
def etlMonthlyRowOf (txs : List Transaction) (cats : List Category) (m : ℤ) :
    EtlMonthlyRow :=
  let income := etlTypeTotal txs cats m "income"
  let expense := etlTypeTotal txs cats m "expense"
  if etlHasType txs cats "income" && etlHasType txs cats "expense" then
    { month := m
      income := income
      expense := expense
      savings := some (income - expense)
      savingsRate :=
        if income = 0 then none
        else some (npRoundTo 2 ((income - expense) / income * 100)) }
  else
    { month := m, income := income, expense := expense
      savings := none, savingsRate := none }

/-- The pivoted result table: one row per month present in the data. -/
def extractMonthlySummary (txs : List Transaction) (cats : List Category) :
    List EtlMonthlyRow :=
  (etlMonths txs cats).map (etlMonthlyRowOf txs cats)

/-- The per-category debit transactions of the current month: the LEFT
JOIN condition of both budget-performance CTEs (category match, month
match, transaction_type = 'debit'). -/
def monthDebits (txs : List Transaction) (currentMonth : ℤ) (cid : Nat) :
    List Transaction :=
  txs.filter (fun t =>
    t.categoryId == cid && t.txnMonth == currentMonth && t.transactionType == "debit")

/-- COALESCE(SUM(t.amount), 0) over the month debits of one category:
actual spend, zero when there are no matching transactions. -/
def actualSpendOf (txs : List Transaction) (currentMonth : ℤ) (cid : Nat) : ℚ :=
  ((monthDebits txs currentMonth cid).map (fun t => t.amount)).sum

/-- Result row of FinancialReportGenerator.get_budget_performance. -/
structure BudgetPerfRow where
  categoryName : String
  budget : ℚ
  actualSpend : ℚ
  variance : ℚ
  pctUsed : ℚ
deriving DecidableEq

/-- ORDER BY pct_used DESC for report budget rows. -/
def pctUsedDescRow (a b : BudgetPerfRow) : Bool :=
  decide (b.pctUsed ≤ a.pctUsed)

/-- FinancialReportGenerator.get_budget_performance
(src/05_reports/automated_reports.py lines 91-119): the CTE keeps only
categories whose parent_category_id IS NOT NULL; the outer query is a LEFT
JOIN onto active budgets filtered by budget_amount IS NOT NULL (hence one
row per matching active budget, of any budget_period); pct_used = CASE
WHEN budget_amount > 0 THEN ROUND(actual / budget * 100, 1) ELSE 0 END;
ORDER BY pct_used DESC. -/
def reportBudgetRowOf (txs : List Transaction) (currentMonth : ℤ)
    (c : Category) (b : Budget) : BudgetPerfRow :=
  let actual := actualSpendOf txs currentMonth c.categoryId
  { categoryName := c.categoryName
    budget := b.budgetAmount
    actualSpend := actual
    variance := b.budgetAmount - actual
    pctUsed :=
      if 0 < b.budgetAmount then sqlRoundTo 1 (actual / b.budgetAmount * 100)
      else 0 }

/-- The full report budget-performance query. -/
def getBudgetPerformance (txs : List Transaction) (cats : List Category)
    (buds : List Budget) (currentMonth : ℤ) : List BudgetPerfRow :=
  let cms := cats.filter (fun c => c.parentCategoryId.isSome)
  let rows := cms.flatMap (fun c =>
    (buds.filter (fun b => b.isActive && b.categoryId == c.categoryId)).map
      (reportBudgetRowOf txs currentMonth c))
  rows.mergeSort pctUsedDescRow

/-- Result row of FinancialDataETL.extract_budget_performance. pct_used is
Option: ROUND((actual / NULLIF(budget_amount, 0)) * 100, 1) is NULL when
budget_amount = 0. -/
structure EtlBudgetRow where
  categoryName : String
  budgetAmount : ℚ
  actualSpend : ℚ
  variance : ℚ
  pctUsed : Option ℚ
  numTransactions : Nat
deriving DecidableEq

/-- ORDER BY actual_spend DESC for ETL budget rows. -/
def actualDescRow (a b : EtlBudgetRow) : Bool :=
  decide (b.actualSpend ≤ a.actualSpend)

/-- FinancialDataETL.extract_budget_performance
(src/02_data_prep/etl_pipeline.py lines 73-105): the CTE keeps only
categories whose parent_category_id IS NOT NULL; budgets is inner-joined
to it, filtered by is_active = TRUE and budget_period = 'monthly';
pct_used = ROUND((actual / NULLIF(budget_amount, 0)) * 100, 1), i.e. NULL
when budget_amount = 0; ORDER BY actual_spend DESC. -/
def etlBudgetRowOf (txs : List Transaction) (currentMonth : ℤ)
    (b : Budget) (c : Category) : EtlBudgetRow :=
  let actual := actualSpendOf txs currentMonth c.categoryId
  { categoryName := c.categoryName
    budgetAmount := b.budgetAmount
    actualSpend := actual
    variance := b.budgetAmount - actual
    pctUsed :=
      if b.budgetAmount = 0 then none
      else some (sqlRoundTo 1 (actual / b.budgetAmount * 100))
    numTransactions := (monthDebits txs currentMonth b.categoryId).length }

/-- The full ETL budget-performance query. -/
def extractBudgetPerformance (txs : List Transaction) (cats : List Category)
    (buds : List Budget) (currentMonth : ℤ) : List EtlBudgetRow :=
  let cms := cats.filter (fun c => c.parentCategoryId.isSome)
  let rows := (buds.filter (fun b =>
      b.isActive && b.budgetPeriod == "monthly")).filterMap (fun b =>
    (cms.find? (fun c => c.categoryId == b.categoryId)).map (etlBudgetRowOf txs currentMonth b))
  rows.mergeSort actualDescRow

/-- The structured content of an alert message: the Python f-strings
interpolate the category name with the actual spend and absolute overage
(budget_exceeded) or with the percent used (budget_warning). -/
inductive AlertMessage where
  | exceededMsg (categoryName : String) (actualSpend : ℚ) (overage : ℚ)
  | warningMsg (categoryName : String) (pctUsed : ℚ)
deriving DecidableEq

/-- An alert produced by FinancialReportGenerator.get_alerts. -/
structure AlertRecord where
  alertType : String
  severity : String
  message : AlertMessage
deriving DecidableEq

/-- The classification core of FinancialReportGenerator.get_alerts
(src/05_reports/automated_reports.py lines 154-179), as a function of the
budget-performance rows: all rows with pct_used > 100 produce a
budget_exceeded / high alert whose message carries the actual spend and
abs(variance); then all rows with 90 <= pct_used <= 100 produce a
budget_warning / medium alert whose message carries pct_used. -/
def classifyAlerts (budgetDf : List BudgetPerfRow) : List AlertRecord :=
  let overBudget := budgetDf.filter (fun r => decide (100 < r.pctUsed))
  let nearBudget := budgetDf.filter (fun r =>
    decide (90 ≤ r.pctUsed) && decide (r.pctUsed ≤ 100))
  overBudget.map (fun r =>
    { alertType := "budget_exceeded", severity := "high"
      message := AlertMessage.exceededMsg r.categoryName r.actualSpend |r.variance| }) ++
  nearBudget.map (fun r =>
    { alertType := "budget_warning", severity := "medium"
      message := AlertMessage.warningMsg r.categoryName r.pctUsed })

/-- FinancialReportGenerator.get_alerts: fetches the budget-performance
rows and classifies them. -/
def getAlerts (txs : List Transaction) (cats : List Category)
    (buds : List Budget) (currentMonth : ℤ) : List AlertRecord :=
  classifyAlerts (getBudgetPerformance txs cats buds currentMonth)

/-- A recommendation emitted by the report composer, identified by which
rule produced it (the Python code emits fixed strings; the focus rule
interpolates the category name). -/
inductive Recommendation where
  | increaseSavingsRate
  | reviewExceededCategories
  | focusOnCategory (categoryName : String)
  | greatJobDefault
  | keepHabitsDefault
deriving DecidableEq

/-- The recommendation block of
FinancialReportGenerator.generate_monthly_report
(src/05_reports/automated_reports.py lines 330-347): sequentially append a
savings-rate recommendation when savings_rate < 20, an alerts-review
recommendation when any alerts exist, a focus recommendation naming the
first over-budget row of the (pct_used-descending) budget table when one
exists; if nothing was appended, the two default recommendations. -/
def generateRecommendations (savingsRate : ℚ) (alerts : List AlertRecord)
    (budgetDf : List BudgetPerfRow) : List Recommendation :=
  let recs : List Recommendation := []
  let recs := if savingsRate < 20 then recs ++ [Recommendation.increaseSavingsRate] else recs
  let recs := if 0 < alerts.length then recs ++ [Recommendation.reviewExceededCategories] else recs
  let recs :=
    if budgetDf.isEmpty then recs
    else
      match budgetDf.filter (fun r => decide (100 < r.pctUsed)) with
      | [] => recs
      | r :: _ => recs ++ [Recommendation.focusOnCategory r.categoryName]
  if recs.isEmpty then [Recommendation.greatJobDefault, Recommendation.keepHabitsDefault]
  else recs

/-- The recommendations of one generate_monthly_report run, wired to the
summary, alerts and budget table it fetches. -/
def monthlyReportRecommendations (txs : List Transaction) (cats : List Category)
    (buds : List Budget) (currentMonth : ℤ) : List Recommendation :=
  generateRecommendations (getMonthlySummary txs cats currentMonth).savingsRate
    (getAlerts txs cats buds currentMonth)
    (getBudgetPerformance txs cats buds currentMonth)

/-- Result row of FinancialDataETL.extract_financial_goals. pct_complete
is Option: ROUND((current / NULLIF(target, 0)) * 100, 2) is NULL when
target_amount = 0. -/
structure GoalRow where
  goalName : String
  goalType : String
  targetAmount : ℚ
  currentAmount : ℚ
  targetDate : ℤ
  priority : ℤ
  amountRemaining : ℚ
  pctComplete : Option ℚ
  daysRemaining : ℤ
  monthlySavingsNeeded : ℚ
deriving DecidableEq

/-- The computed row for one active goal: amount_remaining = target -
current; pct_complete = ROUND((current / NULLIF(target, 0)) * 100, 2);
days_remaining = target_date - CURRENT_DATE; monthly_savings_needed =
np.where(days_remaining > 0, amount_remaining / (days_remaining / 30),
0).round(2). -/
def goalRowOf (today : ℤ) (g : FinancialGoal) : GoalRow :=
  let amountRemaining := g.targetAmount - g.currentAmount
  let daysRemaining := g.targetDate - today
  { goalName := g.goalName
    goalType := g.goalType
    targetAmount := g.targetAmount
    currentAmount := g.currentAmount
    targetDate := g.targetDate
    priority := g.priority
    amountRemaining := amountRemaining
    pctComplete :=
      if g.targetAmount = 0 then none
      else some (sqlRoundTo 2 (g.currentAmount / g.targetAmount * 100))
    daysRemaining := daysRemaining
    monthlySavingsNeeded :=
      if 0 < daysRemaining then npRoundTo 2 (amountRemaining / ((daysRemaining : ℚ) / 30))
      else 0 }

/-- ORDER BY priority, pct_complete DESC (PostgreSQL: DESC puts NULLs
first) for goal rows. -/
def goalOrderRow (a b : GoalRow) : Bool :=
  if a.priority = b.priority then
    match a.pctComplete, b.pctComplete with
    | none, _ => true
    | some _, none => false
    | some x, some y => decide (y ≤ x)
  else decide (a.priority ≤ b.priority)

/-- FinancialDataETL.extract_financial_goals
(src/02_data_prep/etl_pipeline.py lines 192-221): one row per goal with
is_active = TRUE, sorted by priority then pct_complete descending. -/
def extractFinancialGoals (goals : List FinancialGoal) (today : ℤ) : List GoalRow :=
  ((goals.filter (fun g => g.isActive)).map (goalRowOf today)).mergeSort goalOrderRow

/-- Result row of FinancialDataETL.extract_merchant_analysis. The query's
STDDEV(amount) column is not modelled: its value is a real square root,
irrational in general, and no property here refers to it. -/
structure MerchantRow where
  merchant : String
  transactionCount : Nat
  totalSpent : ℚ
  avgTransaction : ℚ
  firstTransaction : ℤ
  lastTransaction : ℤ
  daysActive : ℤ
  avgDaysBetween : ℚ
deriving DecidableEq

/-- The debit transactions of one merchant (WHERE transaction_type =
'debit' AND merchant IS NOT NULL, grouped by merchant). -/
def merchantDebits (txs : List Transaction) (m : String) : List Transaction :=
  txs.filter (fun t => t.transactionType == "debit" && t.merchant == some m)

/-- The distinct merchants of the debit transactions (the GROUP BY keys;
merchant IS NULL rows contribute nothing). -/
def debitMerchants (txs : List Transaction) : List String :=
  (txs.filterMap (fun t =>
    if t.transactionType == "debit" then t.merchant else none)).dedup

/-- Minimum of a date list (MIN aggregate; only used on nonempty groups). -/
def minDateList : List ℤ → ℤ
  | [] => 0
  | d :: ds => ds.foldl min d

/-- Maximum of a date list (MAX aggregate; only used on nonempty groups). -/
def maxDateList : List ℤ → ℤ
  | [] => 0
  | d :: ds => ds.foldl max d

/-- ORDER BY total_spent DESC for merchant rows. -/
def totalDescMerchantRow (a b : MerchantRow) : Bool :=
  decide (b.totalSpent ≤ a.totalSpent)

/-- The aggregated row of one merchant group: COUNT(*), SUM(amount),
AVG(amount), MIN/MAX(transaction_date), days_active = last - first,
avg_days_between = days_active / (transaction_count - 1). -/
def merchantRowOf (txs : List Transaction) (m : String) : MerchantRow :=
  let g := merchantDebits txs m
  let cnt := g.length
  let dates := g.map (fun t => t.txnDate)
  let first := minDateList dates
  let last := maxDateList dates
  let total := (g.map (fun t => t.amount)).sum
  { merchant := m
    transactionCount := cnt
    totalSpent := total
    avgTransaction := total / cnt
    firstTransaction := first
    lastTransaction := last
    daysActive := last - first
    avgDaysBetween := ((last - first : ℤ) : ℚ) / ((cnt : ℚ) - 1) }

/-- FinancialDataETL.extract_merchant_analysis
(src/02_data_prep/etl_pipeline.py lines 164-190): per-merchant statistics
over debit transactions with a non-null merchant, HAVING COUNT(*) >= 2,
ORDER BY total_spent DESC; then days_active and avg_days_between computed
in pandas. -/
def extractMerchantAnalysis (txs : List Transaction) : List MerchantRow :=
  (((debitMerchants txs).filter (fun m => 2 ≤ (merchantDebits txs m).length)).map
    (merchantRowOf txs)).mergeSort totalDescMerchantRow

/-- Result row of FinancialDataETL.extract_category_spending. -/
structure CategorySpendRow where
  month : ℤ
  categoryName : String
  parentCategory : Option String
  totalSpend : ℚ
  transactionCount : Nat
  avgTransaction : ℚ
deriving DecidableEq

/-- The parent category's name (LEFT JOIN categories parent_c ON
c.parent_category_id = parent_c.category_id). -/
def parentNameOf (cats : List Category) (c : Category) : Option String :=
  c.parentCategoryId.bind (fun pid => (lookupCategory cats pid).map (fun p => p.categoryName))

/-- The joined rows feeding extract_category_spending: debit transactions
whose category has a non-null parent. -/
def catSpendBase (txs : List Transaction) (cats : List Category) :
    List (Transaction × Category) :=
  (joinTxnCategory txs cats).filter (fun p =>
    p.1.transactionType == "debit" && p.2.parentCategoryId.isSome)

/-- The GROUP BY key of extract_category_spending: (month, category_name,
parent_category name). -/
def spendKey (cats : List Category) (p : Transaction × Category) :
    ℤ × String × Option String :=
  (p.1.txnMonth, p.2.categoryName, parentNameOf cats p.2)

/-- The distinct grouping keys of extract_category_spending. -/
def spendKeys (txs : List Transaction) (cats : List Category) :
    List (ℤ × String × Option String) :=
  ((catSpendBase txs cats).map (spendKey cats)).dedup

/-- ORDER BY month DESC, total_spend DESC for category-spending rows. -/
def monthSpendDescRow (a b : CategorySpendRow) : Bool :=
  if a.month = b.month then decide (b.totalSpend ≤ a.totalSpend)
  else decide (b.month ≤ a.month)

/-- FinancialDataETL.extract_category_spending
(src/02_data_prep/etl_pipeline.py lines 141-162): SUM(amount), COUNT(*),
AVG(amount) of debit transactions grouped by (month, category_name,
parent_category), restricted to categories with a non-null parent (no
category_type filter), ORDER BY month DESC, total_spend DESC. -/
def catSpendRowOf (txs : List Transaction) (cats : List Category)
    (k : ℤ × String × Option String) : CategorySpendRow :=
  let g := (catSpendBase txs cats).filter (fun p => spendKey cats p == k)
  let total := (g.map (fun p => p.1.amount)).sum
  { month := k.1
    categoryName := k.2.1
    parentCategory := k.2.2
    totalSpend := total
    transactionCount := g.length
    avgTransaction := total / g.length }

/-- The grouped result table of extract_category_spending. -/
def extractCategorySpending (txs : List Transaction) (cats : List Category) :
    List CategorySpendRow :=
  ((spendKeys txs cats).map (catSpendRowOf txs cats)).mergeSort monthSpendDescRow

/-- FinancialDataETL.export_to_excel (src/02_data_prep/etl_pipeline.py
lines 266-344): each sheet extraction is wrapped in its own try/except;
a section that raises is reported as a warning and the remaining sections
are still exported. The outcome of each extraction attempt is modelled as
an Except value; the function returns the exported sheets and the warning
messages, in order. -/
def exportToExcel {α : Type} (sections : List (String × Except String α)) :
    List (String × α) × List (String × String) :=
  sections.foldl (fun acc s =>
    match s.2 with
    | Except.ok d => (acc.1 ++ [(s.1, d)], acc.2)
    | Except.error e => (acc.1, acc.2 ++ [(s.1, e)])) ([], [])

/-- Modelled from the spec's wording for the income total: the sum of
transaction amounts whose category type is income, in the given month.
Used to compare the implementations against the claimed formula. -/
def specIncomeTotal (txs : List Transaction) (cats : List Category) (m : ℤ) : ℚ :=
  (((joinTxnCategory txs cats).filter (fun p =>
    p.1.txnMonth == m && p.2.categoryType == "income")).map (fun p => p.1.amount)).sum

/-- Modelled from the spec's wording for the expense total: the sum of
amounts whose category type is expense AND transaction type is debit, in
the given month (credits to expense categories excluded). -/
def specExpenseTotal (txs : List Transaction) (cats : List Category) (m : ℤ) : ℚ :=
  (((joinTxnCategory txs cats).filter (fun p =>
    p.1.txnMonth == m &&
      (p.2.categoryType == "expense" && p.1.transactionType == "debit"))).map
    (fun p => p.1.amount)).sum

/-- The credits (non-debit transactions) to expense categories in the
given month: the part the ETL monthly summary counts into expenses beyond
the spec's debit-only total. -/
def etlExpenseCredits (txs : List Transaction) (cats : List Category) (m : ℤ) : ℚ :=
  (((joinTxnCategory txs cats).filter (fun p =>
    (p.1.txnMonth == m && p.2.categoryType == "expense") &&
      !(p.1.transactionType == "debit"))).map (fun p => p.1.amount)).sum

/-- Whether the (unique, under a name-Nodup hypothesis) category of this
name has type expense. -/
def isExpenseName (cats : List Category) (n : String) : Bool :=
  match cats.find? (fun c => c.categoryName == n) with
  | some c => c.categoryType == "expense"
  | none => false

/-- Modelled from the spec's wording for the rollup: the sum over the
category-spending rows of one month, restricted to expense categories, of
their per-category debit totals. -/
def expenseRollupTotal (rows : List CategorySpendRow) (cats : List Category) (m : ℤ) : ℚ :=
  ((rows.filter (fun r => r.month == m && isExpenseName cats r.categoryName)).map
    (fun r => r.totalSpend)).sum

theorem sum_map_ite_eq_sum_filter {α : Type} (l : List α) (p : α → Bool) (f : α → ℚ) :
    (l.map (fun a => if p a then f a else 0)).sum = ((l.filter p).map f).sum := by
  induction l with
  | nil => simp
  | cons a t ih =>
    by_cases h : p a <;> simp [List.filter_cons, h, ih]

theorem sum_filter_add_sum_filter_not {α : Type} (l : List α) (p : α → Bool) (f : α → ℚ) :
    ((l.filter p).map f).sum + ((l.filter (fun a => !p a)).map f).sum = (l.map f).sum := by
  induction l with
  | nil => simp
  | cons a t ih =>
    by_cases h : p a <;> simp [List.filter_cons, h, ← ih] <;> ring

theorem sum_map_mergeSort {α : Type} (le : α → α → Bool) (l : List α) (f : α → ℚ) :
    ((l.mergeSort le).map f).sum = (l.map f).sum :=
  ((l.mergeSort_perm le).map f).sum_eq

theorem filter_mergeSort_perm {α : Type} (le : α → α → Bool) (l : List α) (p : α → Bool) :
    ((l.mergeSort le).filter p).Perm (l.filter p) :=
  (l.mergeSort_perm le).filter p

theorem sum_fiberwise_filter {α κ : Type} [BEq κ] [LawfulBEq κ] (key : α → κ) (f : α → ℚ)
    (P : κ → Bool) :
    ∀ (ks : List κ) (l : List α), ks.Nodup → (∀ a ∈ l, key a ∈ ks) →
      ((ks.filter P).map (fun k => ((l.filter (fun a => key a == k)).map f).sum)).sum =
        ((l.filter (fun a => P (key a))).map f).sum := by
  intro ks
  induction ks with
  | nil =>
    intro l _ hcov
    have hl : l = [] := List.eq_nil_iff_forall_not_mem.mpr (fun a ha => by
      simpa using hcov a ha)
    simp [hl]
  | cons k ks ih =>
    intro l hnd hcov
    have hk : k ∉ ks := (List.nodup_cons.mp hnd).1
    have hnd' : ks.Nodup := (List.nodup_cons.mp hnd).2
    have hcov' : ∀ a ∈ l.filter (fun a => !(key a == k)), key a ∈ ks := by
      intro a ha
      rcases List.mem_filter.mp ha with ⟨hal, hne⟩
      have := hcov a hal
      simp only [List.mem_cons] at this
      rcases this with h | h
      · simp [h] at hne
      · exact h
    have hfib : ∀ k' ∈ ks,
        (l.filter (fun a => !(key a == k))).filter (fun a => key a == k')
          = l.filter (fun a => key a == k') := by
      intro k' hk'
      rw [List.filter_filter]
      apply List.filter_congr
      intro a _
      by_cases h : key a = k'
      · have hne : ¬(k' = k) := fun e => hk (e ▸ hk')
        have hak : ¬(key a = k) := fun e => hne ((h.symm.trans e))
        simp [h, hak, hne]
      · simp [h]
    have ihl := ih (l.filter (fun a => !(key a == k))) hnd' hcov'
    have hmapeq : (ks.filter P).map
          (fun k' => (((l.filter (fun a => !(key a == k))).filter
            (fun a => key a == k')).map f).sum)
        = (ks.filter P).map
          (fun k' => ((l.filter (fun a => key a == k')).map f).sum) := by
      apply List.map_congr_left
      intro k' hk'
      rw [hfib k' (List.mem_of_mem_filter hk')]
    rw [hmapeq] at ihl
    by_cases hPk : P k
    · rw [List.filter_cons_of_pos (by simp [hPk])]
      simp only [List.map_cons, List.sum_cons]
      rw [ihl]
      have hsplit := sum_filter_add_sum_filter_not (l.filter (fun a => P (key a)))
        (fun a => key a == k) f
      rw [List.filter_filter, List.filter_filter] at hsplit
      have h1 : l.filter (fun a => (key a == k) && P (key a))
          = l.filter (fun a => key a == k) := by
        apply List.filter_congr
        intro a _
        by_cases h : key a = k
        · simp [h, hPk]
        · simp [h]
      have h2 : l.filter (fun a => !(key a == k) && P (key a))
          = (l.filter (fun a => !(key a == k))).filter (fun a => P (key a)) := by
        rw [List.filter_filter]
        apply List.filter_congr
        intro a _
        exact Bool.and_comm _ _
      rw [h1, h2] at hsplit
      linarith [hsplit]
    · rw [List.filter_cons_of_neg (by simp [hPk])]
      rw [ihl]
      have h3 : (l.filter (fun a => !(key a == k))).filter (fun a => P (key a))
          = l.filter (fun a => P (key a)) := by
        rw [List.filter_filter]
        apply List.filter_congr
        intro a _
        by_cases h : key a = k
        · simp [h, hPk]
        · simp [h]
      rw [h3]

theorem monthlyIncomeSum_eq (txs : List Transaction) (cats : List Category) (m : ℤ) :
    ((currentMonthRows txs cats m).map (fun p =>
      if p.2.categoryType == "income" then p.1.amount else 0)).sum
      = specIncomeTotal txs cats m := by
  simp only [currentMonthRows, specIncomeTotal]
  rw [sum_map_ite_eq_sum_filter, List.filter_filter]
  congr 1
  congr 1
  apply List.filter_congr
  intro p _
  simp [Bool.and_comm]

theorem monthlyExpenseSum_eq (txs : List Transaction) (cats : List Category) (m : ℤ) :
    ((currentMonthRows txs cats m).map (fun p =>
      if p.2.categoryType == "expense" && p.1.transactionType == "debit"
      then p.1.amount else 0)).sum
      = specExpenseTotal txs cats m := by
  simp only [currentMonthRows, specExpenseTotal]
  rw [sum_map_ite_eq_sum_filter, List.filter_filter]
  congr 1
  congr 1
  apply List.filter_congr
  intro p _
  simp [Bool.and_comm]

theorem etlTypeTotal_expense_split (txs : List Transaction) (cats : List Category) (m : ℤ) :
    etlTypeTotal txs cats m "expense"
      = specExpenseTotal txs cats m + etlExpenseCredits txs cats m := by
  have h := sum_filter_add_sum_filter_not
    ((joinTxnCategory txs cats).filter (fun p =>
      p.1.txnMonth == m && p.2.categoryType == "expense"))
    (fun p => p.1.transactionType == "debit") (fun p => p.1.amount)
  rw [List.filter_filter, List.filter_filter] at h
  simp only [etlTypeTotal, specExpenseTotal, etlExpenseCredits]
  have h1 : (joinTxnCategory txs cats).filter (fun p =>
        (p.1.transactionType == "debit") && (p.1.txnMonth == m && p.2.categoryType == "expense"))
      = (joinTxnCategory txs cats).filter (fun p =>
        p.1.txnMonth == m && (p.2.categoryType == "expense" && p.1.transactionType == "debit")) := by
    apply List.filter_congr
    intro p _
    simp [Bool.and_comm, Bool.and_left_comm, Bool.and_assoc]
  have h2 : (joinTxnCategory txs cats).filter (fun p =>
        (!(p.1.transactionType == "debit")) && (p.1.txnMonth == m && p.2.categoryType == "expense"))
      = (joinTxnCategory txs cats).filter (fun p =>
        (p.1.txnMonth == m && p.2.categoryType == "expense") && !(p.1.transactionType == "debit")) := by
    apply List.filter_congr
    intro p _
    simp [Bool.and_comm]
  rw [h1, h2] at h
  linarith [h]

theorem getMonthlySummary_nonempty (txs : List Transaction) (cats : List Category) (m : ℤ)
    (h : currentMonthRows txs cats m ≠ []) :
    (getMonthlySummary txs cats m).income = some (specIncomeTotal txs cats m)
    ∧ (getMonthlySummary txs cats m).expenses = some (specExpenseTotal txs cats m)
    ∧ (getMonthlySummary txs cats m).savings
        = some (specIncomeTotal txs cats m - specExpenseTotal txs cats m)
    ∧ (0 < specIncomeTotal txs cats m →
        (getMonthlySummary txs cats m).savingsRate
          = sqlRoundTo 2 ((specIncomeTotal txs cats m - specExpenseTotal txs cats m)
              / specIncomeTotal txs cats m * 100))
    ∧ (¬ 0 < specIncomeTotal txs cats m →
        (getMonthlySummary txs cats m).savingsRate = 0) := by
  have hE : (currentMonthRows txs cats m).isEmpty = false := List.isEmpty_eq_false.mpr h
  have hi := monthlyIncomeSum_eq txs cats m
  have he := monthlyExpenseSum_eq txs cats m
  simp only [getMonthlySummary, hE, Bool.false_eq_true, if_false]
  rw [hi, he]
  refine ⟨rfl, rfl, rfl, ?_, ?_⟩ <;> intro h0
  · rw [if_pos h0]
  · rw [if_neg h0]

theorem getMonthlySummary_empty (txs : List Transaction) (cats : List Category) (m : ℤ)
    (h : currentMonthRows txs cats m = []) :
    (getMonthlySummary txs cats m).income = none
    ∧ (getMonthlySummary txs cats m).expenses = none
    ∧ (getMonthlySummary txs cats m).savings = none
    ∧ (getMonthlySummary txs cats m).savingsRate = 0 := by
  simp [getMonthlySummary, h]

theorem etlMonthlyRowOf_fields (txs : List Transaction) (cats : List Category) (m : ℤ) :
    (etlMonthlyRowOf txs cats m).month = m
    ∧ (etlMonthlyRowOf txs cats m).expense = etlTypeTotal txs cats m "expense"
    ∧ (etlMonthlyRowOf txs cats m).income = etlTypeTotal txs cats m "income"
    ∧ ((etlMonthlyRowOf txs cats m).income = 0 → (etlMonthlyRowOf txs cats m).savingsRate = none) := by
  simp only [etlMonthlyRowOf]
  split
  · refine ⟨rfl, rfl, rfl, ?_⟩
    intro h0
    simp only at h0
    simp [h0]
  · exact ⟨rfl, rfl, rfl, fun _ => rfl⟩


def exCatsA : List Category :=
  [{ categoryId := 1, categoryName := "Salary", categoryType := "income", parentCategoryId := none },
   { categoryId := 2, categoryName := "Misc", categoryType := "expense", parentCategoryId := none }]

def exTxnsA : List Transaction :=
  [{ transactionId := 1, categoryId := 1, amount := 100, transactionType := "credit",
     txnMonth := 0, txnDate := 0, merchant := none },
   { transactionId := 2, categoryId := 2, amount := 30, transactionType := "credit",
     txnMonth := 0, txnDate := 5, merchant := none }]

def exRowA : EtlMonthlyRow :=
  { month := 0, income := 100, expense := 30, savings := some 70, savingsRate := some 70 }

/-- C1: counterexample. On a data set whose month 0 has an income
transaction of 100 and a CREDIT transaction of 30 to an expense category,
the ETL monthly summary reports expense 30, while the sum of amounts with
category type expense AND transaction type debit is 0: the ETL
implementation does not exclude credits to expense categories, so the
claim is false of extract_monthly_summary. -/
theorem C1_counterexample :
    extractMonthlySummary exTxnsA exCatsA = [exRowA]
    ∧ specExpenseTotal exTxnsA exCatsA 0 = 0
    ∧ exRowA.expense = 30
    ∧ (30 : ℚ) ≠ 0 := by
  refine ⟨?_, ?_, rfl, by norm_num⟩
  · simp [extractMonthlySummary, etlMonths, etlMonthlyRowOf, etlTypeTotal, etlHasType,
      joinTxnCategory, lookupCategory, exTxnsA, exCatsA, exRowA]
    norm_num [npRoundTo, npRoundInt]
  · simp [specExpenseTotal, joinTxnCategory, lookupCategory, exTxnsA, exCatsA]

/-- C1 (amended): on a current month with at least one joined
transaction, the report generator's get_monthly_summary computes income as
the income-category sum, expenses as the debit-and-expense sum (credits
excluded), savings = income - expenses, and savings_rate = round2(savings
/ income * 100) with 0 whenever income is not positive (in particular when
income = 0; never a division error); on a month with no transactions its
income, expenses and savings are SQL NULL (NaN through df.iloc[0]), not 0,
while savings_rate is still 0. The ETL extract_monthly_summary instead
counts credits to expense categories into its expense column (expense =
debit total + expense-category credits), and when a month's income is 0
its savings_rate is non-finite (none), not 0. -/
theorem C1_amended_theorem (txs : List Transaction) (cats : List Category) (m : ℤ) :
    (currentMonthRows txs cats m ≠ [] →
      (getMonthlySummary txs cats m).income = some (specIncomeTotal txs cats m)
      ∧ (getMonthlySummary txs cats m).expenses = some (specExpenseTotal txs cats m)
      ∧ (getMonthlySummary txs cats m).savings
          = some (specIncomeTotal txs cats m - specExpenseTotal txs cats m)
      ∧ (0 < specIncomeTotal txs cats m →
          (getMonthlySummary txs cats m).savingsRate
            = sqlRoundTo 2 ((specIncomeTotal txs cats m - specExpenseTotal txs cats m)
                / specIncomeTotal txs cats m * 100))
      ∧ (specIncomeTotal txs cats m = 0 → (getMonthlySummary txs cats m).savingsRate = 0))
    ∧ (currentMonthRows txs cats m = [] →
      (getMonthlySummary txs cats m).income = none
      ∧ (getMonthlySummary txs cats m).expenses = none
      ∧ (getMonthlySummary txs cats m).savings = none
      ∧ (getMonthlySummary txs cats m).savingsRate = 0)
    ∧ (∀ r ∈ extractMonthlySummary txs cats,
        r.expense = specExpenseTotal txs cats r.month + etlExpenseCredits txs cats r.month
        ∧ (r.income = 0 → r.savingsRate = none)) := by
  refine ⟨?_, getMonthlySummary_empty txs cats m, ?_⟩
  · intro h
    obtain ⟨hi, he, hs, hrpos, hrzero⟩ := getMonthlySummary_nonempty txs cats m h
    refine ⟨hi, he, hs, hrpos, ?_⟩
    intro hzero
    exact hrzero (by rw [hzero]; exact lt_irrefl 0)
  · intro r hr
    obtain ⟨mr, hmr, rfl⟩ := List.mem_map.mp hr
    obtain ⟨hmonth, hexp, hinc, hnone⟩ := etlMonthlyRowOf_fields txs cats mr
    refine ⟨?_, hnone⟩
    rw [hexp, hmonth, etlTypeTotal_expense_split]

/-- C1 witness: the amended theorem instantiated on the concrete data set
exTxnsA / exCatsA, at month 0 (which has transactions) and at month 1
(which has none). -/
theorem C1_amended_witness :
    (getMonthlySummary exTxnsA exCatsA 0).savingsRate
        = sqlRoundTo 2 ((specIncomeTotal exTxnsA exCatsA 0 - specExpenseTotal exTxnsA exCatsA 0)
            / specIncomeTotal exTxnsA exCatsA 0 * 100)
    ∧ (getMonthlySummary exTxnsA exCatsA 1).income = none
    ∧ exRowA.expense = specExpenseTotal exTxnsA exCatsA 0 + etlExpenseCredits exTxnsA exCatsA 0 := by
  refine ⟨?_, ?_, ?_⟩
  · exact ((C1_amended_theorem exTxnsA exCatsA 0).1 (by
      simp [currentMonthRows, joinTxnCategory, lookupCategory, exTxnsA, exCatsA])).2.2.2.1 (by
      simp [specIncomeTotal, joinTxnCategory, lookupCategory, exTxnsA, exCatsA])
  · exact ((C1_amended_theorem exTxnsA exCatsA 1).2.1 (by
      simp [currentMonthRows, joinTxnCategory, lookupCategory, exTxnsA, exCatsA])).1
  · have hmem : exRowA ∈ extractMonthlySummary exTxnsA exCatsA := by
      simp [extractMonthlySummary, etlMonths, etlMonthlyRowOf, etlTypeTotal, etlHasType,
        joinTxnCategory, lookupCategory, exTxnsA, exCatsA, exRowA]
      norm_num [npRoundTo, npRoundInt]
    have h := ((C1_amended_theorem exTxnsA exCatsA 0).2.2 exRowA hmem).1
    simpa [exRowA] using h

theorem mem_extractBudgetPerformance {txs : List Transaction} {cats : List Category}
    {buds : List Budget} {m : ℤ} {r : EtlBudgetRow} :
    r ∈ extractBudgetPerformance txs cats buds m ↔
      ∃ b ∈ buds, b.isActive = true ∧ b.budgetPeriod = "monthly" ∧
        ∃ c, (cats.filter (fun c => c.parentCategoryId.isSome)).find?
            (fun c => c.categoryId == b.categoryId) = some c
          ∧ r = etlBudgetRowOf txs m b c := by
  simp only [extractBudgetPerformance, List.mem_mergeSort, List.mem_filterMap,
    List.mem_filter, Bool.and_eq_true, beq_iff_eq, Option.map_eq_some']
  constructor
  · rintro ⟨b, ⟨hb, hact, hper⟩, c, hfind, rfl⟩
    exact ⟨b, hb, hact, hper, c, hfind, rfl⟩
  · rintro ⟨b, hb, hact, hper, c, hfind, rfl⟩
    exact ⟨b, ⟨hb, hact, hper⟩, c, hfind, rfl⟩

theorem mem_getBudgetPerformance {txs : List Transaction} {cats : List Category}
    {buds : List Budget} {m : ℤ} {r : BudgetPerfRow} :
    r ∈ getBudgetPerformance txs cats buds m ↔
      ∃ c ∈ cats, c.parentCategoryId.isSome = true ∧
        ∃ b ∈ buds, b.isActive = true ∧ b.categoryId = c.categoryId
          ∧ r = reportBudgetRowOf txs m c b := by
  simp only [getBudgetPerformance, List.mem_mergeSort, List.mem_flatMap, List.mem_map,
    List.mem_filter, Bool.and_eq_true, beq_iff_eq]
  constructor
  · rintro ⟨c, ⟨hc, hpar⟩, b, ⟨hb, hact, hcid⟩, rfl⟩
    exact ⟨c, hc, hpar, b, hb, hact, hcid, rfl⟩
  · rintro ⟨c, hc, hpar, b, hb, hact, hcid, rfl⟩
    exact ⟨c, ⟨hc, hpar⟩, b, ⟨hb, hact, hcid⟩, rfl⟩

theorem etlBudgetRowOf_fields (txs : List Transaction) (m : ℤ) (b : Budget) (c : Category) :
    (etlBudgetRowOf txs m b c).categoryName = c.categoryName
    ∧ (etlBudgetRowOf txs m b c).budgetAmount = b.budgetAmount
    ∧ (etlBudgetRowOf txs m b c).actualSpend = actualSpendOf txs m c.categoryId
    ∧ (etlBudgetRowOf txs m b c).variance
        = (etlBudgetRowOf txs m b c).budgetAmount - (etlBudgetRowOf txs m b c).actualSpend
    ∧ ((etlBudgetRowOf txs m b c).budgetAmount = 0 → (etlBudgetRowOf txs m b c).pctUsed = none)
    ∧ ((etlBudgetRowOf txs m b c).budgetAmount ≠ 0 →
        (etlBudgetRowOf txs m b c).pctUsed
          = some (sqlRoundTo 1 ((etlBudgetRowOf txs m b c).actualSpend
              / (etlBudgetRowOf txs m b c).budgetAmount * 100))) := by
  refine ⟨rfl, rfl, rfl, rfl, ?_, ?_⟩ <;> intro h <;>
    simp only [etlBudgetRowOf] at h ⊢ <;> simp [h]

theorem reportBudgetRowOf_fields (txs : List Transaction) (m : ℤ) (c : Category) (b : Budget) :
    (reportBudgetRowOf txs m c b).categoryName = c.categoryName
    ∧ (reportBudgetRowOf txs m c b).budget = b.budgetAmount
    ∧ (reportBudgetRowOf txs m c b).actualSpend = actualSpendOf txs m c.categoryId
    ∧ (reportBudgetRowOf txs m c b).variance
        = (reportBudgetRowOf txs m c b).budget - (reportBudgetRowOf txs m c b).actualSpend
    ∧ (¬ 0 < (reportBudgetRowOf txs m c b).budget → (reportBudgetRowOf txs m c b).pctUsed = 0)
    ∧ (0 < (reportBudgetRowOf txs m c b).budget →
        (reportBudgetRowOf txs m c b).pctUsed
          = sqlRoundTo 1 ((reportBudgetRowOf txs m c b).actualSpend
              / (reportBudgetRowOf txs m c b).budget * 100)) := by
  refine ⟨rfl, rfl, rfl, rfl, ?_, ?_⟩ <;> intro h <;>
    simp only [reportBudgetRowOf] at h ⊢ <;> simp [h]


def exCatsB : List Category :=
  [{ categoryId := 1, categoryName := "Food", categoryType := "expense", parentCategoryId := none },
   { categoryId := 2, categoryName := "Snacks", categoryType := "expense", parentCategoryId := some 1 }]

def exChildB : Category :=
  { categoryId := 2, categoryName := "Snacks", categoryType := "expense", parentCategoryId := some 1 }

def exBudsB0 : List Budget :=
  [{ categoryId := 2, budgetAmount := 0, budgetPeriod := "monthly", isActive := true }]

def exTxnsB : List Transaction :=
  [{ transactionId := 1, categoryId := 2, amount := 5, transactionType := "debit",
     txnMonth := 0, txnDate := 0, merchant := none }]

def exBudB600 : Budget :=
  { categoryId := 2, budgetAmount := 600, budgetPeriod := "monthly", isActive := true }

def exTxnB650 : List Transaction :=
  [{ transactionId := 1, categoryId := 2, amount := 650, transactionType := "debit",
     txnMonth := 0, txnDate := 0, merchant := none }]

/-- C2: counterexample. A category with an active monthly budget of 0 and
actual debit spend 5 yields, in the ETL budget performance, pct_used =
NULL (none) and not 0: ROUND((actual / NULLIF(budget, 0)) * 100, 1)
propagates the NULL instead of producing the claimed 0. -/
theorem C2_counterexample :
    extractBudgetPerformance exTxnsB exCatsB exBudsB0 0
      = [{ categoryName := "Snacks", budgetAmount := 0, actualSpend := 5,
           variance := -5, pctUsed := none, numTransactions := 1 }]
    ∧ (none : Option ℚ) ≠ some 0
    ∧ (0 : ℚ) < 5 := by
  refine ⟨?_, by simp, by norm_num⟩
  simp [extractBudgetPerformance, etlBudgetRowOf, actualSpendOf, monthDebits,
    exTxnsB, exCatsB, exBudsB0]

/-- C2 (amended): for every category with a non-null parent and an active
monthly budget, the ETL budget evaluator emits a row whose actual spend is
the sum of the category's current-month debit transactions (zero if none)
and whose variance is budget - actual; its pct_used is round1(actual /
budget * 100) when budget is nonzero but NULL (none) when budget = 0, even
when actual > 0 (never a division error). The report evaluator's rows
satisfy the same formulas with pct_used = 0 (not NULL) whenever budget is
not positive. -/
theorem C2_amended_theorem (txs : List Transaction) (cats : List Category)
    (buds : List Budget) (m : ℤ) :
    (∀ r ∈ extractBudgetPerformance txs cats buds m,
        r.variance = r.budgetAmount - r.actualSpend
        ∧ (r.budgetAmount = 0 → r.pctUsed = none)
        ∧ (r.budgetAmount ≠ 0 →
            r.pctUsed = some (sqlRoundTo 1 (r.actualSpend / r.budgetAmount * 100))))
    ∧ (∀ b ∈ buds, b.isActive = true → b.budgetPeriod = "monthly" →
        ∀ c, (cats.filter (fun c => c.parentCategoryId.isSome)).find?
            (fun c => c.categoryId == b.categoryId) = some c →
          etlBudgetRowOf txs m b c ∈ extractBudgetPerformance txs cats buds m
          ∧ (etlBudgetRowOf txs m b c).actualSpend
              = ((txs.filter (fun t => t.categoryId == c.categoryId && t.txnMonth == m
                  && t.transactionType == "debit")).map (fun t => t.amount)).sum)
    ∧ (∀ r ∈ getBudgetPerformance txs cats buds m,
        r.variance = r.budget - r.actualSpend
        ∧ (r.budget ≤ 0 → r.pctUsed = 0)
        ∧ (0 < r.budget → r.pctUsed = sqlRoundTo 1 (r.actualSpend / r.budget * 100))) := by
  refine ⟨?_, ?_, ?_⟩
  · intro r hr
    obtain ⟨b, hb, hact, hper, c, hfind, rfl⟩ := mem_extractBudgetPerformance.mp hr
    obtain ⟨-, -, -, hvar, hz, hnz⟩ := etlBudgetRowOf_fields txs m b c
    exact ⟨hvar, hz, hnz⟩
  · intro b hb hact hper c hfind
    exact ⟨mem_extractBudgetPerformance.mpr ⟨b, hb, hact, hper, c, hfind, rfl⟩, rfl⟩
  · intro r hr
    obtain ⟨c, hc, hpar, b, hb, hact, hcid, rfl⟩ := mem_getBudgetPerformance.mp hr
    obtain ⟨-, -, -, hvar, hz, hnz⟩ := reportBudgetRowOf_fields txs m c b
    exact ⟨hvar, fun hle => hz (not_lt.mpr hle), hnz⟩

/-- C2 witness: the amended theorem instantiated on a category with an
active monthly budget of 600 and one debit transaction of 650. -/
theorem C2_amended_witness :
    etlBudgetRowOf exTxnB650 0 exBudB600 exChildB
        ∈ extractBudgetPerformance exTxnB650 exCatsB [exBudB600] 0
    ∧ (etlBudgetRowOf exTxnB650 0 exBudB600 exChildB).pctUsed = some 108.3 := by
  have h := (C2_amended_theorem exTxnB650 exCatsB [exBudB600] 0).2.1 exBudB600
    (by simp) rfl rfl exChildB (by simp [exCatsB, exChildB, exBudB600])
  refine ⟨h.1, ?_⟩
  simp [etlBudgetRowOf, actualSpendOf, monthDebits, exTxnB650, exBudB600, exChildB]
  norm_num [sqlRoundTo, sqlRoundInt]

def exRow100 : BudgetPerfRow :=
  { categoryName := "Dining", budget := 100, actualSpend := 100, variance := 0, pctUsed := 100 }

def exRow10001 : BudgetPerfRow :=
  { categoryName := "Dining", budget := 10000, actualSpend := 10001, variance := -1,
    pctUsed := 100.01 }

/-- C3: the alert classifier emits, per budget-performance row, exactly
one budget_exceeded/high alert when pct_used > 100 (message carrying
actual spend and absolute overage), exactly one budget_warning/medium
alert when 90 <= pct_used <= 100 (message carrying the percent used), and
nothing when pct_used < 90; the two bands are disjoint, so no row matches
both rules; at the boundary, a row with pct_used exactly 100 produces a
budget_warning and a row with pct_used 100.01 produces a budget_exceeded. -/
theorem C3_theorem (budgetDf : List BudgetPerfRow) :
    ((classifyAlerts budgetDf).length
        = (budgetDf.filter (fun r => decide (100 < r.pctUsed))).length
          + (budgetDf.filter (fun r =>
              decide (90 ≤ r.pctUsed) && decide (r.pctUsed ≤ 100))).length)
    ∧ (∀ r ∈ budgetDf, 100 < r.pctUsed →
        ({ alertType := "budget_exceeded", severity := "high",
           message := AlertMessage.exceededMsg r.categoryName r.actualSpend |r.variance| }
          : AlertRecord) ∈ classifyAlerts budgetDf)
    ∧ (∀ r ∈ budgetDf, 90 ≤ r.pctUsed → r.pctUsed ≤ 100 →
        ({ alertType := "budget_warning", severity := "medium",
           message := AlertMessage.warningMsg r.categoryName r.pctUsed }
          : AlertRecord) ∈ classifyAlerts budgetDf)
    ∧ (∀ a ∈ classifyAlerts budgetDf, ∃ r ∈ budgetDf,
        (100 < r.pctUsed
          ∧ a = { alertType := "budget_exceeded", severity := "high",
                  message := AlertMessage.exceededMsg r.categoryName r.actualSpend |r.variance| })
        ∨ (90 ≤ r.pctUsed ∧ r.pctUsed ≤ 100
          ∧ a = { alertType := "budget_warning", severity := "medium",
                  message := AlertMessage.warningMsg r.categoryName r.pctUsed }))
    ∧ (∀ r : BudgetPerfRow, ¬ (100 < r.pctUsed ∧ 90 ≤ r.pctUsed ∧ r.pctUsed ≤ 100))
    ∧ classifyAlerts [exRow100]
        = [{ alertType := "budget_warning", severity := "medium",
             message := AlertMessage.warningMsg "Dining" 100 }]
    ∧ classifyAlerts [exRow10001]
        = [{ alertType := "budget_exceeded", severity := "high",
             message := AlertMessage.exceededMsg "Dining" 10001 1 }] := by
  refine ⟨?_, ?_, ?_, ?_, ?_, ?_, ?_⟩
  · simp [classifyAlerts]
  · intro r hr hgt
    apply List.mem_append_left
    exact List.mem_map_of_mem _ (List.mem_filter.mpr ⟨hr, by simpa using hgt⟩)
  · intro r hr h90 h100
    apply List.mem_append_right
    exact List.mem_map_of_mem _ (List.mem_filter.mpr ⟨hr, by simp [h90, h100]⟩)
  · intro a ha
    rcases List.mem_append.mp ha with h | h
    · rcases List.mem_map.mp h with ⟨r, hrf, rfl⟩
      rcases List.mem_filter.mp hrf with ⟨hr, hcond⟩
      exact ⟨r, hr, Or.inl ⟨by simpa using hcond, rfl⟩⟩
    · rcases List.mem_map.mp h with ⟨r, hrf, rfl⟩
      rcases List.mem_filter.mp hrf with ⟨hr, hcond⟩
      simp only [Bool.and_eq_true, decide_eq_true_eq] at hcond
      exact ⟨r, hr, Or.inr ⟨hcond.1, hcond.2, rfl⟩⟩
  · rintro r ⟨h1, -, h3⟩
    linarith
  · simp [classifyAlerts, exRow100]
    norm_num
  · simp [classifyAlerts, exRow10001]
    norm_num

/-- C3 witness: the classifier applied to the concrete boundary row with
pct_used 100.01 contains the budget_exceeded alert. -/
theorem C3_witness :
    ({ alertType := "budget_exceeded", severity := "high",
       message := AlertMessage.exceededMsg "Dining" 10001 1 } : AlertRecord)
      ∈ classifyAlerts [exRow10001] := by
  have h := (C3_theorem [exRow10001]).2.1 exRow10001 (List.mem_singleton.mpr rfl)
    (by norm_num [exRow10001])
  simpa [exRow10001] using h

theorem goalRowOf_fields (today : ℤ) (g : FinancialGoal) :
    (goalRowOf today g).targetAmount = g.targetAmount
    ∧ (goalRowOf today g).currentAmount = g.currentAmount
    ∧ (goalRowOf today g).amountRemaining
        = (goalRowOf today g).targetAmount - (goalRowOf today g).currentAmount
    ∧ (goalRowOf today g).daysRemaining = (goalRowOf today g).targetDate - today
    ∧ ((goalRowOf today g).targetAmount = 0 → (goalRowOf today g).pctComplete = none)
    ∧ ((goalRowOf today g).targetAmount ≠ 0 →
        (goalRowOf today g).pctComplete
          = some (sqlRoundTo 2 ((goalRowOf today g).currentAmount
              / (goalRowOf today g).targetAmount * 100)))
    ∧ (0 < (goalRowOf today g).daysRemaining →
        (goalRowOf today g).monthlySavingsNeeded
          = npRoundTo 2 ((goalRowOf today g).amountRemaining
              / (((goalRowOf today g).daysRemaining : ℚ) / 30)))
    ∧ ((goalRowOf today g).daysRemaining ≤ 0 →
        (goalRowOf today g).monthlySavingsNeeded = 0) := by
  refine ⟨rfl, rfl, rfl, rfl, ?_, ?_, ?_, ?_⟩ <;> intro h <;>
    simp only [goalRowOf] at h ⊢
  · simp [h]
  · simp [h]
  · simp [h]
  · rw [if_neg (not_lt.mpr h)]

theorem mem_extractFinancialGoals {goals : List FinancialGoal} {today : ℤ} {r : GoalRow} :
    r ∈ extractFinancialGoals goals today ↔
      ∃ g ∈ goals, g.isActive = true ∧ r = goalRowOf today g := by
  simp only [extractFinancialGoals, List.mem_mergeSort, List.mem_map, List.mem_filter]
  constructor
  · rintro ⟨g, ⟨hg, hact⟩, rfl⟩
    exact ⟨g, hg, hact, rfl⟩
  · rintro ⟨g, hg, hact, rfl⟩
    exact ⟨g, ⟨hg, hact⟩, rfl⟩

def exGoalZero : FinancialGoal :=
  { goalName := "Gadget", goalType := "purchase", targetAmount := 0, currentAmount := 5,
    targetDate := 10, priority := 1, isActive := true }

def exGoal15000 : FinancialGoal :=
  { goalName := "Emergency Fund", goalType := "savings", targetAmount := 15000,
    currentAmount := 8500, targetDate := 200, priority := 1, isActive := true }

/-- C4: counterexample. An active goal with target_amount 0 and
current_amount 5 yields pct_complete = NULL (none), not the claimed 0:
ROUND((current / NULLIF(target, 0)) * 100, 2) propagates the NULL. -/
theorem C4_counterexample :
    extractFinancialGoals [exGoalZero] 0
      = [{ goalName := "Gadget", goalType := "purchase", targetAmount := 0,
           currentAmount := 5, targetDate := 10, priority := 1, amountRemaining := -5,
           pctComplete := none, daysRemaining := 10, monthlySavingsNeeded := -15 }]
    ∧ (none : Option ℚ) ≠ some 0 := by
  refine ⟨?_, by simp⟩
  simp [extractFinancialGoals, goalRowOf, exGoalZero]
  norm_num [npRoundTo, npRoundInt]

/-- C4 (amended): for every active goal the tracker computes
amount_remaining = target - current (negative allowed, never clamped),
days_remaining = target_date - evaluation date (negative allowed),
monthly_savings_needed = round2(amount_remaining / (days_remaining / 30))
when days_remaining > 0 and 0 when days_remaining <= 0; pct_complete =
round2(current / target * 100) when target is nonzero, but NULL (none),
not 0, when target = 0. The claimed scenario holds: target 15000, current
8500, 200 days remaining gives amount_remaining 6500, pct_complete 56.67,
monthly_savings_needed 975. -/
theorem C4_amended_theorem (goals : List FinancialGoal) (today : ℤ) :
    (∀ g ∈ goals, g.isActive = true → goalRowOf today g ∈ extractFinancialGoals goals today)
    ∧ (∀ r ∈ extractFinancialGoals goals today,
        r.amountRemaining = r.targetAmount - r.currentAmount
        ∧ r.daysRemaining = r.targetDate - today
        ∧ (r.targetAmount = 0 → r.pctComplete = none)
        ∧ (r.targetAmount ≠ 0 →
            r.pctComplete = some (sqlRoundTo 2 (r.currentAmount / r.targetAmount * 100)))
        ∧ (0 < r.daysRemaining →
            r.monthlySavingsNeeded = npRoundTo 2 (r.amountRemaining / ((r.daysRemaining : ℚ) / 30)))
        ∧ (r.daysRemaining ≤ 0 → r.monthlySavingsNeeded = 0))
    ∧ (goalRowOf 0 exGoal15000).amountRemaining = 6500
    ∧ (goalRowOf 0 exGoal15000).pctComplete = some 56.67
    ∧ (goalRowOf 0 exGoal15000).daysRemaining = 200
    ∧ (goalRowOf 0 exGoal15000).monthlySavingsNeeded = 975 := by
  refine ⟨?_, ?_, ?_, ?_, ?_, ?_⟩
  · intro g hg hact
    exact mem_extractFinancialGoals.mpr ⟨g, hg, hact, rfl⟩
  · intro r hr
    obtain ⟨g, hg, hact, rfl⟩ := mem_extractFinancialGoals.mp hr
    obtain ⟨-, -, ham, hdays, hz, hnz, hpos, hnonpos⟩ := goalRowOf_fields today g
    exact ⟨ham, hdays, hz, hnz, hpos, hnonpos⟩
  · norm_num [goalRowOf, exGoal15000]
  · norm_num [goalRowOf, exGoal15000, sqlRoundTo, sqlRoundInt]
  · norm_num [goalRowOf, exGoal15000]
  · norm_num [goalRowOf, exGoal15000, npRoundTo, npRoundInt]

/-- C4 witness: the amended theorem instantiated on the scenario goal
(target 15000, current 8500, 200 days remaining). -/
theorem C4_amended_witness :
    goalRowOf 0 exGoal15000 ∈ extractFinancialGoals [exGoal15000] 0
    ∧ (goalRowOf 0 exGoal15000).pctComplete
        = some (sqlRoundTo 2 ((goalRowOf 0 exGoal15000).currentAmount
            / (goalRowOf 0 exGoal15000).targetAmount * 100)) := by
  refine ⟨(C4_amended_theorem [exGoal15000] 0).1 exGoal15000 (List.mem_singleton.mpr rfl) rfl, ?_⟩
  have hmem := (C4_amended_theorem [exGoal15000] 0).1 exGoal15000 (List.mem_singleton.mpr rfl) rfl
  exact (((C4_amended_theorem [exGoal15000] 0).2.1 (goalRowOf 0 exGoal15000) hmem).2.2.2.1
    (by norm_num [goalRowOf, exGoal15000]))

theorem mem_extractMerchantAnalysis {txs : List Transaction} {r : MerchantRow} :
    r ∈ extractMerchantAnalysis txs ↔
      ∃ m ∈ debitMerchants txs, 2 ≤ (merchantDebits txs m).length
        ∧ r = merchantRowOf txs m := by
  simp only [extractMerchantAnalysis, List.mem_mergeSort, List.mem_map, List.mem_filter,
    decide_eq_true_eq]
  constructor
  · rintro ⟨m, ⟨hm, hlen⟩, rfl⟩
    exact ⟨m, hm, hlen, rfl⟩
  · rintro ⟨m, hm, hlen, rfl⟩
    exact ⟨m, ⟨hm, hlen⟩, rfl⟩

theorem mem_debitMerchants_of_two {txs : List Transaction} {m : String}
    (h : 2 ≤ (merchantDebits txs m).length) : m ∈ debitMerchants txs := by
  have hne : merchantDebits txs m ≠ [] := by
    intro he
    rw [he] at h
    simp at h
  obtain ⟨t, ht⟩ := List.exists_mem_of_ne_nil _ hne
  obtain ⟨htx, hcond⟩ := List.mem_filter.mp ht
  simp only [Bool.and_eq_true, beq_iff_eq] at hcond
  apply List.mem_dedup.mpr
  apply List.mem_filterMap.mpr
  exact ⟨t, htx, by simp [hcond.1, hcond.2]⟩

/-- C5: a merchant appears in the merchant-analysis output iff it has at
least 2 debit transactions (HAVING COUNT(*) >= 2; a merchant with exactly
one transaction is always excluded), and every output row satisfies
avg_days_between = days_active / (transaction_count - 1) with
days_active = last - first and a divisor that is nonzero because
transaction_count >= 2, so the division never degenerates. -/
theorem C5_theorem (txs : List Transaction) :
    (∀ m : String, (∃ r ∈ extractMerchantAnalysis txs, r.merchant = m)
        ↔ 2 ≤ (merchantDebits txs m).length)
    ∧ (∀ r ∈ extractMerchantAnalysis txs,
        2 ≤ r.transactionCount
        ∧ r.daysActive = r.lastTransaction - r.firstTransaction
        ∧ r.avgDaysBetween = (r.daysActive : ℚ) / ((r.transactionCount : ℚ) - 1)
        ∧ ((r.transactionCount : ℚ) - 1 ≠ 0)) := by
  constructor
  · intro m
    constructor
    · rintro ⟨r, hr, rfl⟩
      obtain ⟨m', hm', hlen, rfl⟩ := mem_extractMerchantAnalysis.mp hr
      exact hlen
    · intro hlen
      exact ⟨merchantRowOf txs m,
        mem_extractMerchantAnalysis.mpr ⟨m, mem_debitMerchants_of_two hlen, hlen, rfl⟩, rfl⟩
  · intro r hr
    obtain ⟨m, hm, hlen, rfl⟩ := mem_extractMerchantAnalysis.mp hr
    refine ⟨hlen, rfl, rfl, ?_⟩
    have h2 : (2 : ℚ) ≤ ((merchantDebits txs m).length : ℚ) := by exact_mod_cast hlen
    intro hzero
    have : ((merchantDebits txs m).length : ℚ) = 1 := by
      have : ((merchantRowOf txs m).transactionCount : ℚ) = 1 := by linarith
      simpa [merchantRowOf] using this
    linarith

def exTxnsM : List Transaction :=
  [{ transactionId := 1, categoryId := 1, amount := 20, transactionType := "debit",
     txnMonth := 0, txnDate := 0, merchant := some "Store" },
   { transactionId := 2, categoryId := 1, amount := 30, transactionType := "debit",
     txnMonth := 0, txnDate := 10, merchant := some "Store" }]

/-- C5 witness: a merchant with exactly two debit transactions appears in
the output, and its row divides days_active by transaction_count - 1. -/
theorem C5_witness :
    (∃ r ∈ extractMerchantAnalysis exTxnsM, r.merchant = "Store")
    ∧ (merchantRowOf exTxnsM "Store").avgDaysBetween
        = (((merchantRowOf exTxnsM "Store").daysActive : ℚ)
            / (((merchantRowOf exTxnsM "Store").transactionCount : ℚ) - 1)) := by
  have hlen : 2 ≤ (merchantDebits exTxnsM "Store").length := by
    simp [merchantDebits, exTxnsM]
  constructor
  · exact ((C5_theorem exTxnsM).1 "Store").mpr hlen
  · have hmem := mem_extractMerchantAnalysis.mpr
      ⟨"Store", mem_debitMerchants_of_two hlen, hlen, rfl⟩
    exact ((C5_theorem exTxnsM).2 (merchantRowOf exTxnsM "Store") hmem).2.2.1

theorem snd_mem_of_mem_joinTxnCategory {txs : List Transaction} {cats : List Category}
    {p : Transaction × Category} (hp : p ∈ joinTxnCategory txs cats) : p.2 ∈ cats := by
  obtain ⟨t, -, hmap⟩ := List.mem_filterMap.mp hp
  obtain ⟨c, hfind, heq⟩ := Option.map_eq_some'.mp hmap
  have : c = p.2 := by
    rw [← heq]
  exact this ▸ List.mem_of_find?_eq_some hfind

theorem isExpenseName_eq_of_nodup {cats : List Category}
    (hN : (cats.map (fun c => c.categoryName)).Nodup) :
    ∀ c ∈ cats, isExpenseName cats c.categoryName = (c.categoryType == "expense") := by
  intro c hc
  have hex : (cats.find? (fun x => x.categoryName == c.categoryName)).isSome := by
    apply List.find?_isSome.mpr
    exact ⟨c, hc, by simp⟩
  obtain ⟨c', hfind⟩ := Option.isSome_iff_exists.mp hex
  have hname : c'.categoryName = c.categoryName := by
    simpa using List.find?_some hfind
  have hmem : c' ∈ cats := List.mem_of_find?_eq_some hfind
  have hcc : c' = c := List.inj_on_of_nodup_map hN hmem hc hname
  subst hcc
  simp [isExpenseName, hfind]

def exCatsC : List Category :=
  [{ categoryId := 1, categoryName := "Rent", categoryType := "expense",
     parentCategoryId := none }]

def exTxnsC : List Transaction :=
  [{ transactionId := 1, categoryId := 1, amount := 50, transactionType := "debit",
     txnMonth := 0, txnDate := 0, merchant := none }]

/-- C6: counterexample. A single debit of 50 to a top-level (parentless)
expense category is counted in the monthly summary's expense total (50)
but produces no category-spending row at all (the query keeps only
categories with a non-null parent), so the rollup sum is 0 and the two
figures differ. -/
theorem C6_counterexample :
    expenseRollupTotal (extractCategorySpending exTxnsC exCatsC) exCatsC 0 = 0
    ∧ (getMonthlySummary exTxnsC exCatsC 0).expenses = some 50
    ∧ (0 : ℚ) ≠ 50 := by
  refine ⟨?_, ?_, by norm_num⟩
  · simp [expenseRollupTotal, extractCategorySpending, spendKeys, catSpendBase,
      joinTxnCategory, lookupCategory, exTxnsC, exCatsC]
  · simp [getMonthlySummary, currentMonthRows, joinTxnCategory, lookupCategory,
      exTxnsC, exCatsC]

theorem specExpenseTotal_eq_zero_of_no_rows (txs : List Transaction)
    (cats : List Category) (m : ℤ) (h : currentMonthRows txs cats m = []) :
    specExpenseTotal txs cats m = 0 := by
  have hall : ∀ p ∈ joinTxnCategory txs cats, ¬(p.1.txnMonth == m) = true :=
    List.filter_eq_nil_iff.mp (by simpa [currentMonthRows] using h)
  have hnil : (joinTxnCategory txs cats).filter (fun p =>
      p.1.txnMonth == m
        && (p.2.categoryType == "expense" && p.1.transactionType == "debit")) = [] := by
    apply List.filter_eq_nil_iff.mpr
    intro p hp hcond
    simp only [Bool.and_eq_true] at hcond
    exact hall p hp hcond.1
  simp [specExpenseTotal, hnil]

theorem rollupTotal_eq_specExpenseTotal (txs : List Transaction) (cats : List Category)
    (m : ℤ) (hN : (cats.map (fun c => c.categoryName)).Nodup)
    (hPar : ∀ p ∈ joinTxnCategory txs cats, p.1.transactionType = "debit" →
      p.2.categoryType = "expense" → p.2.parentCategoryId.isSome = true) :
    expenseRollupTotal (extractCategorySpending txs cats) cats m
      = specExpenseTotal txs cats m := by
  have hperm := filter_mergeSort_perm monthSpendDescRow
    ((spendKeys txs cats).map (catSpendRowOf txs cats))
    (fun r => r.month == m && isExpenseName cats r.categoryName)
  have hA : expenseRollupTotal (extractCategorySpending txs cats) cats m
      = ((((spendKeys txs cats).map (catSpendRowOf txs cats)).filter
          (fun r => r.month == m && isExpenseName cats r.categoryName)).map
          (fun r => r.totalSpend)).sum := by
    unfold expenseRollupTotal extractCategorySpending
    exact (hperm.map (fun r => r.totalSpend)).sum_eq
  rw [hA, List.filter_map, List.map_map]
  have hB : (((spendKeys txs cats).filter ((fun r => r.month == m
        && isExpenseName cats r.categoryName) ∘ catSpendRowOf txs cats)).map
        ((fun r => r.totalSpend) ∘ catSpendRowOf txs cats)).sum
      = (((spendKeys txs cats).filter (fun k => k.1 == m && isExpenseName cats k.2.1)).map
        (fun k => (((catSpendBase txs cats).filter (fun a => spendKey cats a == k)).map
          (fun p => p.1.amount)).sum)).sum := rfl
  rw [hB]
  have hfib := sum_fiberwise_filter (spendKey cats) (fun p => p.1.amount)
    (fun k => k.1 == m && isExpenseName cats k.2.1)
    (spendKeys txs cats) (catSpendBase txs cats)
    (List.nodup_dedup _)
    (fun a ha => List.mem_dedup.mpr (List.mem_map_of_mem _ ha))
  rw [hfib]
  have hC : (catSpendBase txs cats).filter
        (fun a => (spendKey cats a).1 == m && isExpenseName cats (spendKey cats a).2.1)
      = (joinTxnCategory txs cats).filter (fun p =>
          p.1.txnMonth == m
            && (p.2.categoryType == "expense" && p.1.transactionType == "debit")) := by
    unfold catSpendBase
    rw [List.filter_filter]
    apply List.filter_congr
    intro p hp
    have hNE := isExpenseName_eq_of_nodup hN p.2 (snd_mem_of_mem_joinTxnCategory hp)
    cases hMB : (p.1.txnMonth == m) <;> cases hEB : (p.2.categoryType == "expense") <;>
      cases hDB : (p.1.transactionType == "debit") <;>
      simp [spendKey, hNE, hMB, hEB, hDB]
    exact hPar p hp (eq_of_beq hDB) (eq_of_beq hEB)
  rw [hC]
  rfl

/-- C6 (amended): when category names are unique and every debit
transaction on an expense category belongs to a category with a non-null
parent, then, for a month with at least one transaction, the monthly
summary's expense total equals the sum of the per-category debit totals of
the category-spending aggregation over expense categories of that month;
for a month with no transactions the rollup sum is 0 while the monthly
summary's expense figure is SQL NULL (none). Without the parent condition
a debit in a parentless expense category is counted in the expense total
but in no category-spending row. -/
theorem C6_amended_theorem (txs : List Transaction) (cats : List Category) (m : ℤ)
    (hN : (cats.map (fun c => c.categoryName)).Nodup)
    (hPar : ∀ p ∈ joinTxnCategory txs cats, p.1.transactionType = "debit" →
      p.2.categoryType = "expense" → p.2.parentCategoryId.isSome = true) :
    (currentMonthRows txs cats m ≠ [] →
      (getMonthlySummary txs cats m).expenses
        = some (expenseRollupTotal (extractCategorySpending txs cats) cats m))
    ∧ (currentMonthRows txs cats m = [] →
      expenseRollupTotal (extractCategorySpending txs cats) cats m = 0
      ∧ (getMonthlySummary txs cats m).expenses = none) := by
  have hroll := rollupTotal_eq_specExpenseTotal txs cats m hN hPar
  constructor
  · intro h
    rw [hroll]
    exact (getMonthlySummary_nonempty txs cats m h).2.1
  · intro h
    exact ⟨hroll.trans (specExpenseTotal_eq_zero_of_no_rows txs cats m h),
      (getMonthlySummary_empty txs cats m h).2.1⟩

def exCatsC2 : List Category :=
  [{ categoryId := 1, categoryName := "Living", categoryType := "expense",
     parentCategoryId := none },
   { categoryId := 2, categoryName := "Rent", categoryType := "expense",
     parentCategoryId := some 1 }]

def exTxnsC2 : List Transaction :=
  [{ transactionId := 1, categoryId := 2, amount := 50, transactionType := "debit",
     txnMonth := 0, txnDate := 0, merchant := none }]

/-- C6 witness: the amended theorem instantiated on a data set whose only
expense debit lies in a parented category; both figures are 50. -/
theorem C6_amended_witness :
    (getMonthlySummary exTxnsC2 exCatsC2 0).expenses
      = some (expenseRollupTotal (extractCategorySpending exTxnsC2 exCatsC2) exCatsC2 0) := by
  have hPar : ∀ p ∈ joinTxnCategory exTxnsC2 exCatsC2, p.1.transactionType = "debit" →
      p.2.categoryType = "expense" → p.2.parentCategoryId.isSome = true := by
    intro p hp hdeb hexp
    simp only [joinTxnCategory, lookupCategory, exTxnsC2, exCatsC2] at hp
    simp only [List.filterMap_cons, List.filterMap_nil] at hp
    simp at hp
    simp [hp]
  exact (C6_amended_theorem exTxnsC2 exCatsC2 0 (by simp [exCatsC2]) hPar).1 (by
    simp [currentMonthRows, joinTxnCategory, lookupCategory, exTxnsC2, exCatsC2])

def exCats7 : List Category :=
  [{ categoryId := 1, categoryName := "Salary", categoryType := "income", parentCategoryId := none },
   { categoryId := 2, categoryName := "Stuff", categoryType := "expense", parentCategoryId := some 1 }]

def exTxns7 : List Transaction :=
  [{ transactionId := 1, categoryId := 1, amount := 5000, transactionType := "credit",
     txnMonth := 0, txnDate := 0, merchant := none },
   { transactionId := 2, categoryId := 2, amount := 4200, transactionType := "debit",
     txnMonth := 0, txnDate := 1, merchant := none }]

/-- C7: the recommendation list is exactly the ordered concatenation of
the savings-rate rule (fires iff savings_rate < 20), the alerts rule
(fires iff any alerts exist), and the focus rule naming the first
over-budget row of the budget table, with the default positive pair
emitted if and only if no rule fired; on income 5000 and expenses 4200 the
savings rate is 16.0 and the composed report's recommendations are exactly
the increase-savings-rate recommendation. -/
theorem C7_theorem (sr : ℚ) (alerts : List AlertRecord) (budgetDf : List BudgetPerfRow) :
    (generateRecommendations sr alerts budgetDf
        = (let base :=
             (if sr < 20 then [Recommendation.increaseSavingsRate] else [])
             ++ (if alerts = [] then [] else [Recommendation.reviewExceededCategories])
             ++ (match budgetDf.filter (fun r => decide (100 < r.pctUsed)) with
                 | [] => []
                 | r :: _ => [Recommendation.focusOnCategory r.categoryName]);
           if base = [] then [Recommendation.greatJobDefault, Recommendation.keepHabitsDefault]
           else base))
    ∧ (generateRecommendations sr alerts budgetDf
          = [Recommendation.greatJobDefault, Recommendation.keepHabitsDefault]
        ↔ (¬ sr < 20 ∧ alerts = []
            ∧ budgetDf.filter (fun r => decide (100 < r.pctUsed)) = []))
    ∧ (getMonthlySummary exTxns7 exCats7 0).income = some 5000
    ∧ (getMonthlySummary exTxns7 exCats7 0).expenses = some 4200
    ∧ (getMonthlySummary exTxns7 exCats7 0).savingsRate = 16
    ∧ monthlyReportRecommendations exTxns7 exCats7 [] 0
        = [Recommendation.increaseSavingsRate] := by
  have hmain : ∀ sr' : ℚ, ∀ alerts' : List AlertRecord, ∀ budgetDf' : List BudgetPerfRow,
      generateRecommendations sr' alerts' budgetDf'
        = (let base :=
             (if sr' < 20 then [Recommendation.increaseSavingsRate] else [])
             ++ (if alerts' = [] then [] else [Recommendation.reviewExceededCategories])
             ++ (match budgetDf'.filter (fun r => decide (100 < r.pctUsed)) with
                 | [] => []
                 | r :: _ => [Recommendation.focusOnCategory r.categoryName]);
           if base = [] then [Recommendation.greatJobDefault, Recommendation.keepHabitsDefault]
           else base) := by
    intro sr' alerts' budgetDf'
    simp only [generateRecommendations]
    rcases hdf : budgetDf' with _ | ⟨rdf, tdf⟩
    · by_cases h1 : sr' < 20 <;> by_cases h2 : alerts' = [] <;>
        simp [h1, h2, List.length_pos]
    · rcases hf : (rdf :: tdf).filter (fun r => decide (100 < r.pctUsed)) with _ | ⟨r, t⟩ <;>
        by_cases h1 : sr' < 20 <;> by_cases h2 : alerts' = [] <;>
          simp [h1, h2, hf, List.length_pos]
  refine ⟨hmain sr alerts budgetDf, ?_, ?_, ?_, ?_, ?_⟩
  · rw [hmain sr alerts budgetDf]
    by_cases h1 : sr < 20 <;> by_cases h2 : alerts = [] <;>
      rcases hf : budgetDf.filter (fun r => decide (100 < r.pctUsed)) with _ | ⟨r, t⟩ <;>
        simp [h1, h2, hf]
  · simp [getMonthlySummary, currentMonthRows, joinTxnCategory, lookupCategory,
      exTxns7, exCats7]
  · simp [getMonthlySummary, currentMonthRows, joinTxnCategory, lookupCategory,
      exTxns7, exCats7]
  · simp [getMonthlySummary, currentMonthRows, joinTxnCategory, lookupCategory,
      exTxns7, exCats7]
    norm_num [sqlRoundTo, sqlRoundInt]
  · rw [monthlyReportRecommendations, hmain]
    have hbp : getBudgetPerformance exTxns7 exCats7 [] 0 = [] := by
      simp [getBudgetPerformance, exCats7]
    have hal : getAlerts exTxns7 exCats7 [] 0 = [] := by
      simp [getAlerts, hbp, classifyAlerts]
    have hsr : (getMonthlySummary exTxns7 exCats7 0).savingsRate = 16 := by
      simp [getMonthlySummary, currentMonthRows, joinTxnCategory, lookupCategory,
        exTxns7, exCats7]
      norm_num [sqlRoundTo, sqlRoundInt]
    rw [hbp, hal, hsr]
    norm_num

/-- C7 witness: with savings rate 25, no alerts and an empty budget table,
no rule fires and the output is exactly the default pair. -/
theorem C7_witness :
    generateRecommendations 25 [] []
      = [Recommendation.greatJobDefault, Recommendation.keepHabitsDefault] := by
  exact (C7_theorem 25 [] []).2.1.mpr ⟨by norm_num, rfl, rfl⟩

theorem pair_perm_sorted {α : Type} {le : α → α → Prop} {l : List α} {a b : α}
    (hp : l.Perm [a, b]) (hs : l.Pairwise le) (hnab : ¬ le a b) : l = [b, a] := by
  have hlen : l.length = 2 := by simpa using hp.length_eq
  match l, hlen, hp, hs with
  | [x, y], _, hp, hs =>
    have hx' : x = a ∨ x = b := by simpa using hp.mem_iff.mp (List.mem_cons_self x [y])
    rcases hx' with hxa | hxb
    · exfalso
      have hyb : [y].Perm [b] := by
        rw [hxa] at hp
        exact hp.cons_inv
      have hy : y = b := by simpa using List.perm_singleton.mp hyb
      have hab : le x y := (List.pairwise_cons.mp hs).1 y (List.mem_cons_self y [])
      rw [hxa, hy] at hab
      exact hnab hab
    · have hya : [y].Perm [a] := by
        rw [hxb] at hp
        exact (hp.trans (List.Perm.swap b a [])).cons_inv
      have hy : y = a := by simpa using List.perm_singleton.mp hya
      rw [hxb, hy]

theorem extractBudgetPerformance_sorted (txs : List Transaction) (cats : List Category)
    (buds : List Budget) (m : ℤ) :
    (extractBudgetPerformance txs cats buds m).Pairwise
      (fun x y => y.actualSpend ≤ x.actualSpend) := by
  have h := @List.sorted_mergeSort _ actualDescRow
    (fun x y z hxy hyz => by
      simp only [actualDescRow, decide_eq_true_eq] at *
      exact le_trans hyz hxy)
    (fun x y => by
      simp only [actualDescRow]
      rcases le_total y.actualSpend x.actualSpend with h | h <;> simp [h])
    ((buds.filter (fun b => b.isActive && b.budgetPeriod == "monthly")).filterMap (fun b =>
      ((cats.filter (fun c => c.parentCategoryId.isSome)).find?
        (fun c => c.categoryId == b.categoryId)).map (etlBudgetRowOf txs m b)))
  exact h.imp (fun hxy => by simpa [actualDescRow] using hxy)

theorem getBudgetPerformance_sorted (txs : List Transaction) (cats : List Category)
    (buds : List Budget) (m : ℤ) :
    (getBudgetPerformance txs cats buds m).Pairwise
      (fun x y => y.pctUsed ≤ x.pctUsed) := by
  have h := @List.sorted_mergeSort _ pctUsedDescRow
    (fun x y z hxy hyz => by
      simp only [pctUsedDescRow, decide_eq_true_eq] at *
      exact le_trans hyz hxy)
    (fun x y => by
      simp only [pctUsedDescRow]
      rcases le_total y.pctUsed x.pctUsed with h | h <;> simp [h])
    ((cats.filter (fun c => c.parentCategoryId.isSome)).flatMap (fun c =>
      (buds.filter (fun b => b.isActive && b.categoryId == c.categoryId)).map
        (reportBudgetRowOf txs m c)))
  exact h.imp (fun hxy => by simpa [pctUsedDescRow] using hxy)


def exCats8 : List Category :=
  [{ categoryId := 1, categoryName := "Root", categoryType := "expense", parentCategoryId := none },
   { categoryId := 2, categoryName := "A", categoryType := "expense", parentCategoryId := some 1 },
   { categoryId := 3, categoryName := "B", categoryType := "expense", parentCategoryId := some 1 }]

def exBuds8 : List Budget :=
  [{ categoryId := 2, budgetAmount := 100, budgetPeriod := "monthly", isActive := true },
   { categoryId := 3, budgetAmount := 1000, budgetPeriod := "monthly", isActive := true }]

def exTxns8 : List Transaction :=
  [{ transactionId := 1, categoryId := 2, amount := 50, transactionType := "debit",
     txnMonth := 0, txnDate := 0, merchant := none },
   { transactionId := 2, categoryId := 3, amount := 100, transactionType := "debit",
     txnMonth := 0, txnDate := 1, merchant := none }]

def exRowAe : EtlBudgetRow :=
  { categoryName := "A", budgetAmount := 100, actualSpend := 50, variance := 50,
    pctUsed := some 50, numTransactions := 1 }

def exRowBe : EtlBudgetRow :=
  { categoryName := "B", budgetAmount := 1000, actualSpend := 100, variance := 900,
    pctUsed := some 10, numTransactions := 1 }

def exRowAr : BudgetPerfRow :=
  { categoryName := "A", budget := 100, actualSpend := 50, variance := 50, pctUsed := 50 }

def exRowBr : BudgetPerfRow :=
  { categoryName := "B", budget := 1000, actualSpend := 100, variance := 900, pctUsed := 10 }

/-- C8: counterexample. On two categories where the actual-spend order and
the pct_used order disagree (A: actual 50 of budget 100 = 50%; B: actual
100 of budget 1000 = 10%), the ETL evaluator returns the rows with
pct_used ascending [10%, 50%] (it always orders by actual spend), and the
report evaluator returns the rows with actual spend ascending [50, 100]
(it always orders by pct_used): neither evaluator can produce the other
ordering, and neither takes any ordering parameter, so the choice of
ordering is not selectable by the consumer. -/
theorem C8_counterexample :
    (extractBudgetPerformance exTxns8 exCats8 exBuds8 0).map (fun r => r.pctUsed)
        = [some 10, some 50]
    ∧ (getBudgetPerformance exTxns8 exCats8 exBuds8 0).map (fun r => r.actualSpend)
        = [50, 100]
    ∧ (10 : ℚ) < 50 ∧ (50 : ℚ) < 100 := by
  have hpermE : (extractBudgetPerformance exTxns8 exCats8 exBuds8 0).Perm [exRowAe, exRowBe] := by
    have h1 : (extractBudgetPerformance exTxns8 exCats8 exBuds8 0).Perm
        ((exBuds8.filter (fun b => b.isActive && b.budgetPeriod == "monthly")).filterMap
          (fun b => ((exCats8.filter (fun c => c.parentCategoryId.isSome)).find?
            (fun c => c.categoryId == b.categoryId)).map (etlBudgetRowOf exTxns8 0 b))) :=
      List.mergeSort_perm _ _
    have h2 : ((exBuds8.filter (fun b => b.isActive && b.budgetPeriod == "monthly")).filterMap
          (fun b => ((exCats8.filter (fun c => c.parentCategoryId.isSome)).find?
            (fun c => c.categoryId == b.categoryId)).map (etlBudgetRowOf exTxns8 0 b)))
        = [exRowAe, exRowBe] := by
      simp [exBuds8, exCats8, etlBudgetRowOf, actualSpendOf, monthDebits, exTxns8,
        exRowAe, exRowBe]
      norm_num [sqlRoundTo, sqlRoundInt]
    rw [h2] at h1
    exact h1
  have hE : extractBudgetPerformance exTxns8 exCats8 exBuds8 0 = [exRowBe, exRowAe] :=
    pair_perm_sorted hpermE (extractBudgetPerformance_sorted exTxns8 exCats8 exBuds8 0)
      (by norm_num [exRowAe, exRowBe])
  have hpermG : (getBudgetPerformance exTxns8 exCats8 exBuds8 0).Perm [exRowBr, exRowAr] := by
    have h1 : (getBudgetPerformance exTxns8 exCats8 exBuds8 0).Perm
        ((exCats8.filter (fun c => c.parentCategoryId.isSome)).flatMap (fun c =>
          (exBuds8.filter (fun b => b.isActive && b.categoryId == c.categoryId)).map
            (reportBudgetRowOf exTxns8 0 c))) :=
      List.mergeSort_perm _ _
    have h2 : ((exCats8.filter (fun c => c.parentCategoryId.isSome)).flatMap (fun c =>
          (exBuds8.filter (fun b => b.isActive && b.categoryId == c.categoryId)).map
            (reportBudgetRowOf exTxns8 0 c)))
        = [exRowAr, exRowBr] := by
      simp [exBuds8, exCats8, reportBudgetRowOf, actualSpendOf, monthDebits, exTxns8,
        exRowAr, exRowBr]
      norm_num [sqlRoundTo, sqlRoundInt]
    rw [h2] at h1
    exact h1.trans (List.Perm.swap exRowBr exRowAr [])
  have hG : getBudgetPerformance exTxns8 exCats8 exBuds8 0 = [exRowAr, exRowBr] :=
    pair_perm_sorted hpermG (getBudgetPerformance_sorted exTxns8 exCats8 exBuds8 0)
      (by norm_num [exRowAr, exRowBr])
  refine ⟨?_, ?_, by norm_num, by norm_num⟩
  · rw [hE]
    simp [exRowAe, exRowBe]
  · rw [hG]
    simp [exRowAr, exRowBr]

/-- C8 (amended): the ETL budget evaluator's result is always sorted
descending by actual spend and the report evaluator's result is always
sorted descending by pct_used; each ordering is fixed in its query
(ORDER BY actual_spend DESC and ORDER BY pct_used DESC respectively), not
selected by a parameter. -/
theorem C8_amended_theorem (txs : List Transaction) (cats : List Category)
    (buds : List Budget) (m : ℤ) :
    (extractBudgetPerformance txs cats buds m).Pairwise
      (fun x y => y.actualSpend ≤ x.actualSpend)
    ∧ (getBudgetPerformance txs cats buds m).Pairwise
      (fun x y => y.pctUsed ≤ x.pctUsed) :=
  ⟨extractBudgetPerformance_sorted txs cats buds m,
   getBudgetPerformance_sorted txs cats buds m⟩

theorem exportToExcel_foldl {α : Type} :
    ∀ (sections : List (String × Except String α))
      (acc : List (String × α) × List (String × String)),
      sections.foldl (fun acc s =>
        match s.2 with
        | Except.ok d => (acc.1 ++ [(s.1, d)], acc.2)
        | Except.error e => (acc.1, acc.2 ++ [(s.1, e)])) acc
      = (acc.1 ++ sections.filterMap (fun s =>
            match s.2 with
            | Except.ok d => some (s.1, d)
            | Except.error _ => none),
         acc.2 ++ sections.filterMap (fun s =>
            match s.2 with
            | Except.error e => some (s.1, e)
            | Except.ok _ => none)) := by
  intro sections
  induction sections with
  | nil => intro acc; simp
  | cons s t ih =>
    intro acc
    rcases s with ⟨nm, r⟩
    rcases r with e | d <;> simp [List.foldl_cons, ih]

/-- C9: the export composer includes every successfully extracted section
in the output and records every failed section as a warning, in order; a
failure of one section never removes another section from the output and
never aborts the whole export. -/
theorem C9_theorem {α : Type} (sections : List (String × Except String α)) :
    (exportToExcel sections).1 = sections.filterMap (fun s =>
        match s.2 with
        | Except.ok d => some (s.1, d)
        | Except.error _ => none)
    ∧ (exportToExcel sections).2 = sections.filterMap (fun s =>
        match s.2 with
        | Except.error e => some (s.1, e)
        | Except.ok _ => none)
    ∧ (∀ nm e, (nm, (Except.error e : Except String α)) ∈ sections →
        ∀ nm' d, (nm', (Except.ok d : Except String α)) ∈ sections →
          (nm', d) ∈ (exportToExcel sections).1 ∧ (nm, e) ∈ (exportToExcel sections).2) := by
  have h := exportToExcel_foldl sections ([], [])
  have h1 : (exportToExcel sections).1 = sections.filterMap (fun s =>
      match s.2 with
      | Except.ok d => some (s.1, d)
      | Except.error _ => none) := by
    unfold exportToExcel
    rw [h]
    simp
  have h2 : (exportToExcel sections).2 = sections.filterMap (fun s =>
      match s.2 with
      | Except.error e => some (s.1, e)
      | Except.ok _ => none) := by
    unfold exportToExcel
    rw [h]
    simp
  refine ⟨h1, h2, ?_⟩
  intro nm e he nm' d hd
  constructor
  · rw [h1]
    exact List.mem_filterMap.mpr ⟨(nm', Except.ok d), hd, rfl⟩
  · rw [h2]
    exact List.mem_filterMap.mpr ⟨(nm, Except.error e), he, rfl⟩

def exSections9 : List (String × Except String Nat) :=
  [("Transactions", Except.ok 1),
   ("Budget Performance", Except.error "query failed"),
   ("Monthly Summary", Except.ok 2),
   ("Category Spending", Except.ok 3),
   ("Merchant Analysis", Except.ok 4),
   ("Financial Goals", Except.ok 5)]

/-- C9 witness: with the Budget Performance extraction failing, the
Monthly Summary sheet is still exported and the failure is reported as a
warning. -/
theorem C9_witness :
    ("Monthly Summary", 2) ∈ (exportToExcel exSections9).1
    ∧ ("Budget Performance", "query failed") ∈ (exportToExcel exSections9).2 :=
  (C9_theorem exSections9).2.2 "Budget Performance" "query failed" (by simp [exSections9])
    "Monthly Summary" 2 (by simp [exSections9])

theorem getBudgetPerformance_rows_parented (txs : List Transaction) (cats : List Category)
    (buds : List Budget) (m : ℤ) :
    ∀ r ∈ getBudgetPerformance txs cats buds m, ∃ c ∈ cats,
      c.parentCategoryId.isSome = true ∧ r.categoryName = c.categoryName
      ∧ r.actualSpend = ((txs.filter (fun t => t.categoryId == c.categoryId
          && t.txnMonth == m && t.transactionType == "debit")).map (fun t => t.amount)).sum := by
  intro r hr
  obtain ⟨c, hc, hpar, b, hb, hact, hcid, rfl⟩ := mem_getBudgetPerformance.mp hr
  exact ⟨c, hc, hpar, rfl, rfl⟩

theorem extractBudgetPerformance_rows_parented (txs : List Transaction) (cats : List Category)
    (buds : List Budget) (m : ℤ) :
    ∀ r ∈ extractBudgetPerformance txs cats buds m, ∃ c ∈ cats,
      c.parentCategoryId.isSome = true ∧ r.categoryName = c.categoryName
      ∧ r.actualSpend = ((txs.filter (fun t => t.categoryId == c.categoryId
          && t.txnMonth == m && t.transactionType == "debit")).map (fun t => t.amount)).sum := by
  intro r hr
  obtain ⟨b, hb, hact, hper, c, hfind, rfl⟩ := mem_extractBudgetPerformance.mp hr
  have hcmem := List.mem_of_find?_eq_some hfind
  obtain ⟨hc, hpar⟩ := List.mem_filter.mp hcmem
  exact ⟨c, hc, hpar, rfl, rfl⟩

/-- C10: both budget-performance computations consider only categories
with a non-null parent: under unique category names, a top-level
(parentless) category never contributes a row to either output even if it
holds an active monthly budget, and every output row's actual spend sums
only the transactions whose category id is the row's own category, never a
rollup of other categories. -/
theorem C10_theorem (txs : List Transaction) (cats : List Category)
    (buds : List Budget) (m : ℤ)
    (hN : (cats.map (fun c => c.categoryName)).Nodup) :
    (∀ c ∈ cats, c.parentCategoryId = none →
        (∀ r ∈ getBudgetPerformance txs cats buds m, r.categoryName ≠ c.categoryName)
        ∧ (∀ r ∈ extractBudgetPerformance txs cats buds m, r.categoryName ≠ c.categoryName))
    ∧ (∀ r ∈ getBudgetPerformance txs cats buds m, ∃ c ∈ cats,
        c.parentCategoryId.isSome = true ∧ r.categoryName = c.categoryName
        ∧ r.actualSpend = ((txs.filter (fun t => t.categoryId == c.categoryId
            && t.txnMonth == m && t.transactionType == "debit")).map (fun t => t.amount)).sum)
    ∧ (∀ r ∈ extractBudgetPerformance txs cats buds m, ∃ c ∈ cats,
        c.parentCategoryId.isSome = true ∧ r.categoryName = c.categoryName
        ∧ r.actualSpend = ((txs.filter (fun t => t.categoryId == c.categoryId
            && t.txnMonth == m && t.transactionType == "debit")).map (fun t => t.amount)).sum) := by
  refine ⟨?_, getBudgetPerformance_rows_parented txs cats buds m,
    extractBudgetPerformance_rows_parented txs cats buds m⟩
  intro c hc hcnone
  constructor
  · intro r hr hname
    obtain ⟨c', hc', hpar', hname', -⟩ := getBudgetPerformance_rows_parented txs cats buds m r hr
    have : c' = c := List.inj_on_of_nodup_map hN hc' hc (by rw [← hname', hname])
    rw [this, hcnone] at hpar'
    simp at hpar'
  · intro r hr hname
    obtain ⟨c', hc', hpar', hname', -⟩ := extractBudgetPerformance_rows_parented txs cats buds m r hr
    have : c' = c := List.inj_on_of_nodup_map hN hc' hc (by rw [← hname', hname])
    rw [this, hcnone] at hpar'
    simp at hpar'

def exBuds10 : List Budget :=
  [{ categoryId := 1, budgetAmount := 500, budgetPeriod := "monthly", isActive := true },
   { categoryId := 2, budgetAmount := 100, budgetPeriod := "monthly", isActive := true }]

/-- C10 witness: with unique names Root/A/B, where the parentless Root
category holds an active monthly budget, no output row of either evaluator
is named Root, and the row of the budgeted child category A sums only its
own transactions. -/
theorem C10_witness :
    (∀ r ∈ getBudgetPerformance exTxns8 exCats8 exBuds10 0, r.categoryName ≠ "Root")
    ∧ (∀ r ∈ extractBudgetPerformance exTxns8 exCats8 exBuds10 0, r.categoryName ≠ "Root") := by
  have h := (C10_theorem exTxns8 exCats8 exBuds10 0 (by simp [exCats8])).1
    { categoryId := 1, categoryName := "Root", categoryType := "expense",
      parentCategoryId := none }
    (by simp [exCats8]) rfl
  exact h

end FinDash
